import Mathlib

/-!
Shallow embedding of the core simulation of `pacman4k.py` (a maze-chase
arcade game) and verification of its specification claims.

Conventions of the embedding:
* Python floats are modelled as exact rationals (ℚ); all constants of the
  source are dyadic or decimal rationals, so this is faithful.
* Python `int(q)` (truncation toward zero) is `pyint`; Python 3 `round`
  (banker's rounding, ties to even) is `pyround`.
* `math.hypot(a, b) < c` for `c ≥ 0` is embedded as `a^2 + b^2 < c^2`
  (`dist2`), which is equivalent since squaring is monotone on nonnegatives;
  likewise for `>` comparisons and for minimising distances.
* The maze is a `List (List ℕ)` exactly like the Python list-of-lists
  (cell codes: 0 empty, 1 wall, 2 pellet, 3 power pellet).
* Randomness (frightened direction jitter, fruit timer jitter, glitch
  corruption) is passed in as explicit parameters; the glitch path of
  `generate_level` is not taken by any claim (all claims concern levels
  below 256 with the glitch toggle off).
-/

namespace Pacman4k

/-- Grid width, source `GRID_W, GRID_H = 28, 31`. -/
def GRID_W : ℕ := 28

/-- Grid height, source `GRID_W, GRID_H = 28, 31`. -/
def GRID_H : ℕ := 31

/-- Maze as Python list-of-lists of cell codes. -/
abbrev Maze := List (List ℕ)

/-- Read a maze cell, Python `maze[y][x]` (all source reads are bounds-guarded). -/
def mget (m : Maze) (y x : ℕ) : ℕ := (m.getD y []).getD x 0

/-- Write a maze cell, Python `maze[y][x] = v`. -/
def mset (m : Maze) (y x v : ℕ) : Maze := m.set y ((m.getD y []).set x v)

/-- Source: `maze = [[0]*GRID_W for _ in range(GRID_H)]`. -/
def maze0 : Maze := List.replicate GRID_H (List.replicate GRID_W 0)

/-- Source: border wall loops of `generate_level`. -/
def addBorders (m : Maze) : Maze :=
  let m := (List.range GRID_W).foldl (fun m x => mset (mset m 0 x 1) (GRID_H - 1) x 1) m
  (List.range GRID_H).foldl (fun m y => mset (mset m y 0 1) y (GRID_W - 1) 1) m

/-- Source: the handcrafted horizontal pattern loop `for x in range(2, GRID_W-2)`. -/
def addPattern (m : Maze) : Maze :=
  (List.range' 2 (GRID_W - 4)).foldl (fun m x =>
    let m := if x < 10 ∨ x > 17 then mset m 2 x 1 else m
    let m := if x < 6 ∨ x > 21 then mset m 4 x 1 else m
    let m := if (6 ≤ x ∧ x ≤ 9) ∨ (18 ≤ x ∧ x ≤ 21) then mset m 6 x 1 else m
    let m := if (6 ≤ x ∧ x ≤ 12) ∨ (15 ≤ x ∧ x ≤ 21) then mset m 9 x 1 else m
    let m := if 9 ≤ x ∧ x ≤ 18 then mset m 11 x 1 else m
    let m := if x < 6 ∨ x > 21 then mset m 14 x 1 else m
    let m := if (6 ≤ x ∧ x ≤ 12) ∨ (15 ≤ x ∧ x ≤ 21) then mset m 16 x 1 else m
    let m := if (6 ≤ x ∧ x ≤ 9) ∨ (18 ≤ x ∧ x ≤ 21) then mset m 19 x 1 else m
    let m := if x < 6 ∨ x > 21 then mset m 21 x 1 else m
    if x < 10 ∨ x > 17 then mset m 23 x 1 else m) m

/-- Helper: set the two mirrored wall cells of a vertical-wall row. -/
def vset2 (m : Maze) (y x1 x2 : ℕ) : Maze := mset (mset m y x1 1) y x2 1

/-- Source: the nine vertical wall loops of `generate_level`. -/
def addVerticals (m : Maze) : Maze :=
  let m := (List.range' 2 3).foldl (fun m y => vset2 m y 2 (GRID_W - 3)) m
  let m := (List.range' 2 5).foldl (fun m y => vset2 m y 6 (GRID_W - 7)) m
  let m := (List.range' 2 8).foldl (fun m y => vset2 m y 9 (GRID_W - 10)) m
  let m := (List.range' 6 4).foldl (fun m y => vset2 m y 12 (GRID_W - 13)) m
  let m := (List.range' 11 4).foldl (fun m y => vset2 m y 6 (GRID_W - 7)) m
  let m := (List.range' 14 6).foldl (fun m y => vset2 m y 2 (GRID_W - 3)) m
  let m := (List.range' 16 4).foldl (fun m y => vset2 m y 9 (GRID_W - 10)) m
  let m := (List.range' 16 7).foldl (fun m y => vset2 m y 12 (GRID_W - 13)) m
  (List.range' 21 3).foldl (fun m y => vset2 m y 6 (GRID_W - 7)) m

/-- Source: the ghost house block of `generate_level`. -/
def addGhostHouse (m : Maze) : Maze :=
  let m := (List.range' 10 8).foldl (fun m x => mset (mset m 13 x 1) 15 x 1) m
  let m := (List.range' 13 3).foldl (fun m y => mset (mset m y 10 1) y 17 1) m
  mset (mset m 13 13 0) 13 14 0

/-- Source: the four power-pellet coordinates `[(1,3),(GRID_W-2,3),(1,GRID_H-4),(GRID_W-2,GRID_H-4)]`. -/
def powerSpots : List (ℕ × ℕ) :=
  [(1, 3), (GRID_W - 2, 3), (1, GRID_H - 4), (GRID_W - 2, GRID_H - 4)]

/-- The body of the dots-and-power placement loop of `generate_level` at cell
`(x, y)`: skip non-empty cells and the ghost-house region, place a power
pellet on the four `powerSpots`, a pellet elsewhere, counting placements. -/
def dotsCell (y : ℕ) (acc : Maze × ℕ) (x : ℕ) : Maze × ℕ :=
  if mget acc.1 y x = 0 then
    if 13 ≤ y ∧ y ≤ 15 ∧ 10 ≤ x ∧ x ≤ 17 then acc
    else if (x, y) ∈ powerSpots then (mset acc.1 y x 3, acc.2 + 1)
    else (mset acc.1 y x 2, acc.2 + 1)
  else acc

/-- One row of the dots-and-power placement loop (`for x in range(GRID_W)`). -/
def dotsRow (acc : Maze × ℕ) (y : ℕ) : Maze × ℕ :=
  (List.range GRID_W).foldl (dotsCell y) acc

/-- Source: the dots-and-power placement loop of `generate_level`; returns the
filled maze together with `total_pellets`. -/
def addDots (m : Maze) : Maze × ℕ :=
  (List.range GRID_H).foldl dotsRow (m, 0)

/-- The wall skeleton of the generated maze (glitch off). -/
def mazeWalls : Maze := addGhostHouse (addVerticals (addPattern (addBorders maze0)))

/-- First component of the dots pass result (kept as a named function so that
the large fold stays opaque to definitional unfolding). -/
def mazePart (p : Maze × ℕ) : Maze := p.1

/-- Second component of the dots pass result. -/
def countPart (p : Maze × ℕ) : ℕ := p.2

/-- The generated level maze with pellets placed (glitch off). -/
def genMaze : Maze := mazePart (addDots mazeWalls)

/-- The `total_pellets` statistic of the generated level (glitch off). -/
def genTotalPellets : ℕ := countPart (addDots mazeWalls)

/-- Computed value of the wall skeleton `mazeWalls`, certified by `mazeWalls_eq` below. -/
def wallsChk : Maze :=
  [[1, 1, 1, 1, 1, 1, 1, 1, 1, 1, 1, 1, 1, 1, 1, 1, 1, 1, 1, 1, 1, 1, 1, 1, 1, 1, 1, 1],
   [1, 0, 0, 0, 0, 0, 0, 0, 0, 0, 0, 0, 0, 0, 0, 0, 0, 0, 0, 0, 0, 0, 0, 0, 0, 0, 0, 1],
   [1, 0, 1, 1, 1, 1, 1, 1, 1, 1, 0, 0, 0, 0, 0, 0, 0, 0, 1, 1, 1, 1, 1, 1, 1, 1, 0, 1],
   [1, 0, 1, 0, 0, 0, 1, 0, 0, 1, 0, 0, 0, 0, 0, 0, 0, 0, 1, 0, 0, 1, 0, 0, 0, 1, 0, 1],
   [1, 0, 1, 1, 1, 1, 1, 0, 0, 1, 0, 0, 0, 0, 0, 0, 0, 0, 1, 0, 0, 1, 1, 1, 1, 1, 0, 1],
   [1, 0, 0, 0, 0, 0, 1, 0, 0, 1, 0, 0, 0, 0, 0, 0, 0, 0, 1, 0, 0, 1, 0, 0, 0, 0, 0, 1],
   [1, 0, 0, 0, 0, 0, 1, 1, 1, 1, 0, 0, 1, 0, 0, 1, 0, 0, 1, 1, 1, 1, 0, 0, 0, 0, 0, 1],
   [1, 0, 0, 0, 0, 0, 0, 0, 0, 1, 0, 0, 1, 0, 0, 1, 0, 0, 1, 0, 0, 0, 0, 0, 0, 0, 0, 1],
   [1, 0, 0, 0, 0, 0, 0, 0, 0, 1, 0, 0, 1, 0, 0, 1, 0, 0, 1, 0, 0, 0, 0, 0, 0, 0, 0, 1],
   [1, 0, 0, 0, 0, 0, 1, 1, 1, 1, 1, 1, 1, 0, 0, 1, 1, 1, 1, 1, 1, 1, 0, 0, 0, 0, 0, 1],
   [1, 0, 0, 0, 0, 0, 0, 0, 0, 0, 0, 0, 0, 0, 0, 0, 0, 0, 0, 0, 0, 0, 0, 0, 0, 0, 0, 1],
   [1, 0, 0, 0, 0, 0, 1, 0, 0, 1, 1, 1, 1, 1, 1, 1, 1, 1, 1, 0, 0, 1, 0, 0, 0, 0, 0, 1],
   [1, 0, 0, 0, 0, 0, 1, 0, 0, 0, 0, 0, 0, 0, 0, 0, 0, 0, 0, 0, 0, 1, 0, 0, 0, 0, 0, 1],
   [1, 0, 0, 0, 0, 0, 1, 0, 0, 0, 1, 1, 1, 0, 0, 1, 1, 1, 0, 0, 0, 1, 0, 0, 0, 0, 0, 1],
   [1, 0, 1, 1, 1, 1, 1, 0, 0, 0, 1, 0, 0, 0, 0, 0, 0, 1, 0, 0, 0, 1, 1, 1, 1, 1, 0, 1],
   [1, 0, 1, 0, 0, 0, 0, 0, 0, 0, 1, 1, 1, 1, 1, 1, 1, 1, 0, 0, 0, 0, 0, 0, 0, 1, 0, 1],
   [1, 0, 1, 0, 0, 0, 1, 1, 1, 1, 1, 1, 1, 0, 0, 1, 1, 1, 1, 1, 1, 1, 0, 0, 0, 1, 0, 1],
   [1, 0, 1, 0, 0, 0, 0, 0, 0, 1, 0, 0, 1, 0, 0, 1, 0, 0, 1, 0, 0, 0, 0, 0, 0, 1, 0, 1],
   [1, 0, 1, 0, 0, 0, 0, 0, 0, 1, 0, 0, 1, 0, 0, 1, 0, 0, 1, 0, 0, 0, 0, 0, 0, 1, 0, 1],
   [1, 0, 1, 0, 0, 0, 1, 1, 1, 1, 0, 0, 1, 0, 0, 1, 0, 0, 1, 1, 1, 1, 0, 0, 0, 1, 0, 1],
   [1, 0, 0, 0, 0, 0, 0, 0, 0, 0, 0, 0, 1, 0, 0, 1, 0, 0, 0, 0, 0, 0, 0, 0, 0, 0, 0, 1],
   [1, 0, 1, 1, 1, 1, 1, 0, 0, 0, 0, 0, 1, 0, 0, 1, 0, 0, 0, 0, 0, 1, 1, 1, 1, 1, 0, 1],
   [1, 0, 0, 0, 0, 0, 1, 0, 0, 0, 0, 0, 1, 0, 0, 1, 0, 0, 0, 0, 0, 1, 0, 0, 0, 0, 0, 1],
   [1, 0, 1, 1, 1, 1, 1, 1, 1, 1, 0, 0, 0, 0, 0, 0, 0, 0, 1, 1, 1, 1, 1, 1, 1, 1, 0, 1],
   [1, 0, 0, 0, 0, 0, 0, 0, 0, 0, 0, 0, 0, 0, 0, 0, 0, 0, 0, 0, 0, 0, 0, 0, 0, 0, 0, 1],
   [1, 0, 0, 0, 0, 0, 0, 0, 0, 0, 0, 0, 0, 0, 0, 0, 0, 0, 0, 0, 0, 0, 0, 0, 0, 0, 0, 1],
   [1, 0, 0, 0, 0, 0, 0, 0, 0, 0, 0, 0, 0, 0, 0, 0, 0, 0, 0, 0, 0, 0, 0, 0, 0, 0, 0, 1],
   [1, 0, 0, 0, 0, 0, 0, 0, 0, 0, 0, 0, 0, 0, 0, 0, 0, 0, 0, 0, 0, 0, 0, 0, 0, 0, 0, 1],
   [1, 0, 0, 0, 0, 0, 0, 0, 0, 0, 0, 0, 0, 0, 0, 0, 0, 0, 0, 0, 0, 0, 0, 0, 0, 0, 0, 1],
   [1, 0, 0, 0, 0, 0, 0, 0, 0, 0, 0, 0, 0, 0, 0, 0, 0, 0, 0, 0, 0, 0, 0, 0, 0, 0, 0, 1],
   [1, 1, 1, 1, 1, 1, 1, 1, 1, 1, 1, 1, 1, 1, 1, 1, 1, 1, 1, 1, 1, 1, 1, 1, 1, 1, 1, 1]]


/-- Computed checkpoint: the dots pass after the first 4 rows (certified below). -/
def dotsChk4 : Maze :=
  [[1, 1, 1, 1, 1, 1, 1, 1, 1, 1, 1, 1, 1, 1, 1, 1, 1, 1, 1, 1, 1, 1, 1, 1, 1, 1, 1, 1],
   [1, 2, 2, 2, 2, 2, 2, 2, 2, 2, 2, 2, 2, 2, 2, 2, 2, 2, 2, 2, 2, 2, 2, 2, 2, 2, 2, 1],
   [1, 2, 1, 1, 1, 1, 1, 1, 1, 1, 2, 2, 2, 2, 2, 2, 2, 2, 1, 1, 1, 1, 1, 1, 1, 1, 2, 1],
   [1, 3, 1, 2, 2, 2, 1, 2, 2, 1, 2, 2, 2, 2, 2, 2, 2, 2, 1, 2, 2, 1, 2, 2, 2, 1, 3, 1],
   [1, 0, 1, 1, 1, 1, 1, 0, 0, 1, 0, 0, 0, 0, 0, 0, 0, 0, 1, 0, 0, 1, 1, 1, 1, 1, 0, 1],
   [1, 0, 0, 0, 0, 0, 1, 0, 0, 1, 0, 0, 0, 0, 0, 0, 0, 0, 1, 0, 0, 1, 0, 0, 0, 0, 0, 1],
   [1, 0, 0, 0, 0, 0, 1, 1, 1, 1, 0, 0, 1, 0, 0, 1, 0, 0, 1, 1, 1, 1, 0, 0, 0, 0, 0, 1],
   [1, 0, 0, 0, 0, 0, 0, 0, 0, 1, 0, 0, 1, 0, 0, 1, 0, 0, 1, 0, 0, 0, 0, 0, 0, 0, 0, 1],
   [1, 0, 0, 0, 0, 0, 0, 0, 0, 1, 0, 0, 1, 0, 0, 1, 0, 0, 1, 0, 0, 0, 0, 0, 0, 0, 0, 1],
   [1, 0, 0, 0, 0, 0, 1, 1, 1, 1, 1, 1, 1, 0, 0, 1, 1, 1, 1, 1, 1, 1, 0, 0, 0, 0, 0, 1],
   [1, 0, 0, 0, 0, 0, 0, 0, 0, 0, 0, 0, 0, 0, 0, 0, 0, 0, 0, 0, 0, 0, 0, 0, 0, 0, 0, 1],
   [1, 0, 0, 0, 0, 0, 1, 0, 0, 1, 1, 1, 1, 1, 1, 1, 1, 1, 1, 0, 0, 1, 0, 0, 0, 0, 0, 1],
   [1, 0, 0, 0, 0, 0, 1, 0, 0, 0, 0, 0, 0, 0, 0, 0, 0, 0, 0, 0, 0, 1, 0, 0, 0, 0, 0, 1],
   [1, 0, 0, 0, 0, 0, 1, 0, 0, 0, 1, 1, 1, 0, 0, 1, 1, 1, 0, 0, 0, 1, 0, 0, 0, 0, 0, 1],
   [1, 0, 1, 1, 1, 1, 1, 0, 0, 0, 1, 0, 0, 0, 0, 0, 0, 1, 0, 0, 0, 1, 1, 1, 1, 1, 0, 1],
   [1, 0, 1, 0, 0, 0, 0, 0, 0, 0, 1, 1, 1, 1, 1, 1, 1, 1, 0, 0, 0, 0, 0, 0, 0, 1, 0, 1],
   [1, 0, 1, 0, 0, 0, 1, 1, 1, 1, 1, 1, 1, 0, 0, 1, 1, 1, 1, 1, 1, 1, 0, 0, 0, 1, 0, 1],
   [1, 0, 1, 0, 0, 0, 0, 0, 0, 1, 0, 0, 1, 0, 0, 1, 0, 0, 1, 0, 0, 0, 0, 0, 0, 1, 0, 1],
   [1, 0, 1, 0, 0, 0, 0, 0, 0, 1, 0, 0, 1, 0, 0, 1, 0, 0, 1, 0, 0, 0, 0, 0, 0, 1, 0, 1],
   [1, 0, 1, 0, 0, 0, 1, 1, 1, 1, 0, 0, 1, 0, 0, 1, 0, 0, 1, 1, 1, 1, 0, 0, 0, 1, 0, 1],
   [1, 0, 0, 0, 0, 0, 0, 0, 0, 0, 0, 0, 1, 0, 0, 1, 0, 0, 0, 0, 0, 0, 0, 0, 0, 0, 0, 1],
   [1, 0, 1, 1, 1, 1, 1, 0, 0, 0, 0, 0, 1, 0, 0, 1, 0, 0, 0, 0, 0, 1, 1, 1, 1, 1, 0, 1],
   [1, 0, 0, 0, 0, 0, 1, 0, 0, 0, 0, 0, 1, 0, 0, 1, 0, 0, 0, 0, 0, 1, 0, 0, 0, 0, 0, 1],
   [1, 0, 1, 1, 1, 1, 1, 1, 1, 1, 0, 0, 0, 0, 0, 0, 0, 0, 1, 1, 1, 1, 1, 1, 1, 1, 0, 1],
   [1, 0, 0, 0, 0, 0, 0, 0, 0, 0, 0, 0, 0, 0, 0, 0, 0, 0, 0, 0, 0, 0, 0, 0, 0, 0, 0, 1],
   [1, 0, 0, 0, 0, 0, 0, 0, 0, 0, 0, 0, 0, 0, 0, 0, 0, 0, 0, 0, 0, 0, 0, 0, 0, 0, 0, 1],
   [1, 0, 0, 0, 0, 0, 0, 0, 0, 0, 0, 0, 0, 0, 0, 0, 0, 0, 0, 0, 0, 0, 0, 0, 0, 0, 0, 1],
   [1, 0, 0, 0, 0, 0, 0, 0, 0, 0, 0, 0, 0, 0, 0, 0, 0, 0, 0, 0, 0, 0, 0, 0, 0, 0, 0, 1],
   [1, 0, 0, 0, 0, 0, 0, 0, 0, 0, 0, 0, 0, 0, 0, 0, 0, 0, 0, 0, 0, 0, 0, 0, 0, 0, 0, 1],
   [1, 0, 0, 0, 0, 0, 0, 0, 0, 0, 0, 0, 0, 0, 0, 0, 0, 0, 0, 0, 0, 0, 0, 0, 0, 0, 0, 1],
   [1, 1, 1, 1, 1, 1, 1, 1, 1, 1, 1, 1, 1, 1, 1, 1, 1, 1, 1, 1, 1, 1, 1, 1, 1, 1, 1, 1]]

/-- Computed checkpoint: the dots pass after the first 8 rows (certified below). -/
def dotsChk8 : Maze :=
  [[1, 1, 1, 1, 1, 1, 1, 1, 1, 1, 1, 1, 1, 1, 1, 1, 1, 1, 1, 1, 1, 1, 1, 1, 1, 1, 1, 1],
   [1, 2, 2, 2, 2, 2, 2, 2, 2, 2, 2, 2, 2, 2, 2, 2, 2, 2, 2, 2, 2, 2, 2, 2, 2, 2, 2, 1],
   [1, 2, 1, 1, 1, 1, 1, 1, 1, 1, 2, 2, 2, 2, 2, 2, 2, 2, 1, 1, 1, 1, 1, 1, 1, 1, 2, 1],
   [1, 3, 1, 2, 2, 2, 1, 2, 2, 1, 2, 2, 2, 2, 2, 2, 2, 2, 1, 2, 2, 1, 2, 2, 2, 1, 3, 1],
   [1, 2, 1, 1, 1, 1, 1, 2, 2, 1, 2, 2, 2, 2, 2, 2, 2, 2, 1, 2, 2, 1, 1, 1, 1, 1, 2, 1],
   [1, 2, 2, 2, 2, 2, 1, 2, 2, 1, 2, 2, 2, 2, 2, 2, 2, 2, 1, 2, 2, 1, 2, 2, 2, 2, 2, 1],
   [1, 2, 2, 2, 2, 2, 1, 1, 1, 1, 2, 2, 1, 2, 2, 1, 2, 2, 1, 1, 1, 1, 2, 2, 2, 2, 2, 1],
   [1, 2, 2, 2, 2, 2, 2, 2, 2, 1, 2, 2, 1, 2, 2, 1, 2, 2, 1, 2, 2, 2, 2, 2, 2, 2, 2, 1],
   [1, 0, 0, 0, 0, 0, 0, 0, 0, 1, 0, 0, 1, 0, 0, 1, 0, 0, 1, 0, 0, 0, 0, 0, 0, 0, 0, 1],
   [1, 0, 0, 0, 0, 0, 1, 1, 1, 1, 1, 1, 1, 0, 0, 1, 1, 1, 1, 1, 1, 1, 0, 0, 0, 0, 0, 1],
   [1, 0, 0, 0, 0, 0, 0, 0, 0, 0, 0, 0, 0, 0, 0, 0, 0, 0, 0, 0, 0, 0, 0, 0, 0, 0, 0, 1],
   [1, 0, 0, 0, 0, 0, 1, 0, 0, 1, 1, 1, 1, 1, 1, 1, 1, 1, 1, 0, 0, 1, 0, 0, 0, 0, 0, 1],
   [1, 0, 0, 0, 0, 0, 1, 0, 0, 0, 0, 0, 0, 0, 0, 0, 0, 0, 0, 0, 0, 1, 0, 0, 0, 0, 0, 1],
   [1, 0, 0, 0, 0, 0, 1, 0, 0, 0, 1, 1, 1, 0, 0, 1, 1, 1, 0, 0, 0, 1, 0, 0, 0, 0, 0, 1],
   [1, 0, 1, 1, 1, 1, 1, 0, 0, 0, 1, 0, 0, 0, 0, 0, 0, 1, 0, 0, 0, 1, 1, 1, 1, 1, 0, 1],
   [1, 0, 1, 0, 0, 0, 0, 0, 0, 0, 1, 1, 1, 1, 1, 1, 1, 1, 0, 0, 0, 0, 0, 0, 0, 1, 0, 1],
   [1, 0, 1, 0, 0, 0, 1, 1, 1, 1, 1, 1, 1, 0, 0, 1, 1, 1, 1, 1, 1, 1, 0, 0, 0, 1, 0, 1],
   [1, 0, 1, 0, 0, 0, 0, 0, 0, 1, 0, 0, 1, 0, 0, 1, 0, 0, 1, 0, 0, 0, 0, 0, 0, 1, 0, 1],
   [1, 0, 1, 0, 0, 0, 0, 0, 0, 1, 0, 0, 1, 0, 0, 1, 0, 0, 1, 0, 0, 0, 0, 0, 0, 1, 0, 1],
   [1, 0, 1, 0, 0, 0, 1, 1, 1, 1, 0, 0, 1, 0, 0, 1, 0, 0, 1, 1, 1, 1, 0, 0, 0, 1, 0, 1],
   [1, 0, 0, 0, 0, 0, 0, 0, 0, 0, 0, 0, 1, 0, 0, 1, 0, 0, 0, 0, 0, 0, 0, 0, 0, 0, 0, 1],
   [1, 0, 1, 1, 1, 1, 1, 0, 0, 0, 0, 0, 1, 0, 0, 1, 0, 0, 0, 0, 0, 1, 1, 1, 1, 1, 0, 1],
   [1, 0, 0, 0, 0, 0, 1, 0, 0, 0, 0, 0, 1, 0, 0, 1, 0, 0, 0, 0, 0, 1, 0, 0, 0, 0, 0, 1],
   [1, 0, 1, 1, 1, 1, 1, 1, 1, 1, 0, 0, 0, 0, 0, 0, 0, 0, 1, 1, 1, 1, 1, 1, 1, 1, 0, 1],
   [1, 0, 0, 0, 0, 0, 0, 0, 0, 0, 0, 0, 0, 0, 0, 0, 0, 0, 0, 0, 0, 0, 0, 0, 0, 0, 0, 1],
   [1, 0, 0, 0, 0, 0, 0, 0, 0, 0, 0, 0, 0, 0, 0, 0, 0, 0, 0, 0, 0, 0, 0, 0, 0, 0, 0, 1],
   [1, 0, 0, 0, 0, 0, 0, 0, 0, 0, 0, 0, 0, 0, 0, 0, 0, 0, 0, 0, 0, 0, 0, 0, 0, 0, 0, 1],
   [1, 0, 0, 0, 0, 0, 0, 0, 0, 0, 0, 0, 0, 0, 0, 0, 0, 0, 0, 0, 0, 0, 0, 0, 0, 0, 0, 1],
   [1, 0, 0, 0, 0, 0, 0, 0, 0, 0, 0, 0, 0, 0, 0, 0, 0, 0, 0, 0, 0, 0, 0, 0, 0, 0, 0, 1],
   [1, 0, 0, 0, 0, 0, 0, 0, 0, 0, 0, 0, 0, 0, 0, 0, 0, 0, 0, 0, 0, 0, 0, 0, 0, 0, 0, 1],
   [1, 1, 1, 1, 1, 1, 1, 1, 1, 1, 1, 1, 1, 1, 1, 1, 1, 1, 1, 1, 1, 1, 1, 1, 1, 1, 1, 1]]

/-- Computed checkpoint: the dots pass after the first 12 rows (certified below). -/
def dotsChk12 : Maze :=
  [[1, 1, 1, 1, 1, 1, 1, 1, 1, 1, 1, 1, 1, 1, 1, 1, 1, 1, 1, 1, 1, 1, 1, 1, 1, 1, 1, 1],
   [1, 2, 2, 2, 2, 2, 2, 2, 2, 2, 2, 2, 2, 2, 2, 2, 2, 2, 2, 2, 2, 2, 2, 2, 2, 2, 2, 1],
   [1, 2, 1, 1, 1, 1, 1, 1, 1, 1, 2, 2, 2, 2, 2, 2, 2, 2, 1, 1, 1, 1, 1, 1, 1, 1, 2, 1],
   [1, 3, 1, 2, 2, 2, 1, 2, 2, 1, 2, 2, 2, 2, 2, 2, 2, 2, 1, 2, 2, 1, 2, 2, 2, 1, 3, 1],
   [1, 2, 1, 1, 1, 1, 1, 2, 2, 1, 2, 2, 2, 2, 2, 2, 2, 2, 1, 2, 2, 1, 1, 1, 1, 1, 2, 1],
   [1, 2, 2, 2, 2, 2, 1, 2, 2, 1, 2, 2, 2, 2, 2, 2, 2, 2, 1, 2, 2, 1, 2, 2, 2, 2, 2, 1],
   [1, 2, 2, 2, 2, 2, 1, 1, 1, 1, 2, 2, 1, 2, 2, 1, 2, 2, 1, 1, 1, 1, 2, 2, 2, 2, 2, 1],
   [1, 2, 2, 2, 2, 2, 2, 2, 2, 1, 2, 2, 1, 2, 2, 1, 2, 2, 1, 2, 2, 2, 2, 2, 2, 2, 2, 1],
   [1, 2, 2, 2, 2, 2, 2, 2, 2, 1, 2, 2, 1, 2, 2, 1, 2, 2, 1, 2, 2, 2, 2, 2, 2, 2, 2, 1],
   [1, 2, 2, 2, 2, 2, 1, 1, 1, 1, 1, 1, 1, 2, 2, 1, 1, 1, 1, 1, 1, 1, 2, 2, 2, 2, 2, 1],
   [1, 2, 2, 2, 2, 2, 2, 2, 2, 2, 2, 2, 2, 2, 2, 2, 2, 2, 2, 2, 2, 2, 2, 2, 2, 2, 2, 1],
   [1, 2, 2, 2, 2, 2, 1, 2, 2, 1, 1, 1, 1, 1, 1, 1, 1, 1, 1, 2, 2, 1, 2, 2, 2, 2, 2, 1],
   [1, 0, 0, 0, 0, 0, 1, 0, 0, 0, 0, 0, 0, 0, 0, 0, 0, 0, 0, 0, 0, 1, 0, 0, 0, 0, 0, 1],
   [1, 0, 0, 0, 0, 0, 1, 0, 0, 0, 1, 1, 1, 0, 0, 1, 1, 1, 0, 0, 0, 1, 0, 0, 0, 0, 0, 1],
   [1, 0, 1, 1, 1, 1, 1, 0, 0, 0, 1, 0, 0, 0, 0, 0, 0, 1, 0, 0, 0, 1, 1, 1, 1, 1, 0, 1],
   [1, 0, 1, 0, 0, 0, 0, 0, 0, 0, 1, 1, 1, 1, 1, 1, 1, 1, 0, 0, 0, 0, 0, 0, 0, 1, 0, 1],
   [1, 0, 1, 0, 0, 0, 1, 1, 1, 1, 1, 1, 1, 0, 0, 1, 1, 1, 1, 1, 1, 1, 0, 0, 0, 1, 0, 1],
   [1, 0, 1, 0, 0, 0, 0, 0, 0, 1, 0, 0, 1, 0, 0, 1, 0, 0, 1, 0, 0, 0, 0, 0, 0, 1, 0, 1],
   [1, 0, 1, 0, 0, 0, 0, 0, 0, 1, 0, 0, 1, 0, 0, 1, 0, 0, 1, 0, 0, 0, 0, 0, 0, 1, 0, 1],
   [1, 0, 1, 0, 0, 0, 1, 1, 1, 1, 0, 0, 1, 0, 0, 1, 0, 0, 1, 1, 1, 1, 0, 0, 0, 1, 0, 1],
   [1, 0, 0, 0, 0, 0, 0, 0, 0, 0, 0, 0, 1, 0, 0, 1, 0, 0, 0, 0, 0, 0, 0, 0, 0, 0, 0, 1],
   [1, 0, 1, 1, 1, 1, 1, 0, 0, 0, 0, 0, 1, 0, 0, 1, 0, 0, 0, 0, 0, 1, 1, 1, 1, 1, 0, 1],
   [1, 0, 0, 0, 0, 0, 1, 0, 0, 0, 0, 0, 1, 0, 0, 1, 0, 0, 0, 0, 0, 1, 0, 0, 0, 0, 0, 1],
   [1, 0, 1, 1, 1, 1, 1, 1, 1, 1, 0, 0, 0, 0, 0, 0, 0, 0, 1, 1, 1, 1, 1, 1, 1, 1, 0, 1],
   [1, 0, 0, 0, 0, 0, 0, 0, 0, 0, 0, 0, 0, 0, 0, 0, 0, 0, 0, 0, 0, 0, 0, 0, 0, 0, 0, 1],
   [1, 0, 0, 0, 0, 0, 0, 0, 0, 0, 0, 0, 0, 0, 0, 0, 0, 0, 0, 0, 0, 0, 0, 0, 0, 0, 0, 1],
   [1, 0, 0, 0, 0, 0, 0, 0, 0, 0, 0, 0, 0, 0, 0, 0, 0, 0, 0, 0, 0, 0, 0, 0, 0, 0, 0, 1],
   [1, 0, 0, 0, 0, 0, 0, 0, 0, 0, 0, 0, 0, 0, 0, 0, 0, 0, 0, 0, 0, 0, 0, 0, 0, 0, 0, 1],
   [1, 0, 0, 0, 0, 0, 0, 0, 0, 0, 0, 0, 0, 0, 0, 0, 0, 0, 0, 0, 0, 0, 0, 0, 0, 0, 0, 1],
   [1, 0, 0, 0, 0, 0, 0, 0, 0, 0, 0, 0, 0, 0, 0, 0, 0, 0, 0, 0, 0, 0, 0, 0, 0, 0, 0, 1],
   [1, 1, 1, 1, 1, 1, 1, 1, 1, 1, 1, 1, 1, 1, 1, 1, 1, 1, 1, 1, 1, 1, 1, 1, 1, 1, 1, 1]]

/-- Computed checkpoint: the dots pass after the first 16 rows (certified below). -/
def dotsChk16 : Maze :=
  [[1, 1, 1, 1, 1, 1, 1, 1, 1, 1, 1, 1, 1, 1, 1, 1, 1, 1, 1, 1, 1, 1, 1, 1, 1, 1, 1, 1],
   [1, 2, 2, 2, 2, 2, 2, 2, 2, 2, 2, 2, 2, 2, 2, 2, 2, 2, 2, 2, 2, 2, 2, 2, 2, 2, 2, 1],
   [1, 2, 1, 1, 1, 1, 1, 1, 1, 1, 2, 2, 2, 2, 2, 2, 2, 2, 1, 1, 1, 1, 1, 1, 1, 1, 2, 1],
   [1, 3, 1, 2, 2, 2, 1, 2, 2, 1, 2, 2, 2, 2, 2, 2, 2, 2, 1, 2, 2, 1, 2, 2, 2, 1, 3, 1],
   [1, 2, 1, 1, 1, 1, 1, 2, 2, 1, 2, 2, 2, 2, 2, 2, 2, 2, 1, 2, 2, 1, 1, 1, 1, 1, 2, 1],
   [1, 2, 2, 2, 2, 2, 1, 2, 2, 1, 2, 2, 2, 2, 2, 2, 2, 2, 1, 2, 2, 1, 2, 2, 2, 2, 2, 1],
   [1, 2, 2, 2, 2, 2, 1, 1, 1, 1, 2, 2, 1, 2, 2, 1, 2, 2, 1, 1, 1, 1, 2, 2, 2, 2, 2, 1],
   [1, 2, 2, 2, 2, 2, 2, 2, 2, 1, 2, 2, 1, 2, 2, 1, 2, 2, 1, 2, 2, 2, 2, 2, 2, 2, 2, 1],
   [1, 2, 2, 2, 2, 2, 2, 2, 2, 1, 2, 2, 1, 2, 2, 1, 2, 2, 1, 2, 2, 2, 2, 2, 2, 2, 2, 1],
   [1, 2, 2, 2, 2, 2, 1, 1, 1, 1, 1, 1, 1, 2, 2, 1, 1, 1, 1, 1, 1, 1, 2, 2, 2, 2, 2, 1],
   [1, 2, 2, 2, 2, 2, 2, 2, 2, 2, 2, 2, 2, 2, 2, 2, 2, 2, 2, 2, 2, 2, 2, 2, 2, 2, 2, 1],
   [1, 2, 2, 2, 2, 2, 1, 2, 2, 1, 1, 1, 1, 1, 1, 1, 1, 1, 1, 2, 2, 1, 2, 2, 2, 2, 2, 1],
   [1, 2, 2, 2, 2, 2, 1, 2, 2, 2, 2, 2, 2, 2, 2, 2, 2, 2, 2, 2, 2, 1, 2, 2, 2, 2, 2, 1],
   [1, 2, 2, 2, 2, 2, 1, 2, 2, 2, 1, 1, 1, 0, 0, 1, 1, 1, 2, 2, 2, 1, 2, 2, 2, 2, 2, 1],
   [1, 2, 1, 1, 1, 1, 1, 2, 2, 2, 1, 0, 0, 0, 0, 0, 0, 1, 2, 2, 2, 1, 1, 1, 1, 1, 2, 1],
   [1, 2, 1, 2, 2, 2, 2, 2, 2, 2, 1, 1, 1, 1, 1, 1, 1, 1, 2, 2, 2, 2, 2, 2, 2, 1, 2, 1],
   [1, 0, 1, 0, 0, 0, 1, 1, 1, 1, 1, 1, 1, 0, 0, 1, 1, 1, 1, 1, 1, 1, 0, 0, 0, 1, 0, 1],
   [1, 0, 1, 0, 0, 0, 0, 0, 0, 1, 0, 0, 1, 0, 0, 1, 0, 0, 1, 0, 0, 0, 0, 0, 0, 1, 0, 1],
   [1, 0, 1, 0, 0, 0, 0, 0, 0, 1, 0, 0, 1, 0, 0, 1, 0, 0, 1, 0, 0, 0, 0, 0, 0, 1, 0, 1],
   [1, 0, 1, 0, 0, 0, 1, 1, 1, 1, 0, 0, 1, 0, 0, 1, 0, 0, 1, 1, 1, 1, 0, 0, 0, 1, 0, 1],
   [1, 0, 0, 0, 0, 0, 0, 0, 0, 0, 0, 0, 1, 0, 0, 1, 0, 0, 0, 0, 0, 0, 0, 0, 0, 0, 0, 1],
   [1, 0, 1, 1, 1, 1, 1, 0, 0, 0, 0, 0, 1, 0, 0, 1, 0, 0, 0, 0, 0, 1, 1, 1, 1, 1, 0, 1],
   [1, 0, 0, 0, 0, 0, 1, 0, 0, 0, 0, 0, 1, 0, 0, 1, 0, 0, 0, 0, 0, 1, 0, 0, 0, 0, 0, 1],
   [1, 0, 1, 1, 1, 1, 1, 1, 1, 1, 0, 0, 0, 0, 0, 0, 0, 0, 1, 1, 1, 1, 1, 1, 1, 1, 0, 1],
   [1, 0, 0, 0, 0, 0, 0, 0, 0, 0, 0, 0, 0, 0, 0, 0, 0, 0, 0, 0, 0, 0, 0, 0, 0, 0, 0, 1],
   [1, 0, 0, 0, 0, 0, 0, 0, 0, 0, 0, 0, 0, 0, 0, 0, 0, 0, 0, 0, 0, 0, 0, 0, 0, 0, 0, 1],
   [1, 0, 0, 0, 0, 0, 0, 0, 0, 0, 0, 0, 0, 0, 0, 0, 0, 0, 0, 0, 0, 0, 0, 0, 0, 0, 0, 1],
   [1, 0, 0, 0, 0, 0, 0, 0, 0, 0, 0, 0, 0, 0, 0, 0, 0, 0, 0, 0, 0, 0, 0, 0, 0, 0, 0, 1],
   [1, 0, 0, 0, 0, 0, 0, 0, 0, 0, 0, 0, 0, 0, 0, 0, 0, 0, 0, 0, 0, 0, 0, 0, 0, 0, 0, 1],
   [1, 0, 0, 0, 0, 0, 0, 0, 0, 0, 0, 0, 0, 0, 0, 0, 0, 0, 0, 0, 0, 0, 0, 0, 0, 0, 0, 1],
   [1, 1, 1, 1, 1, 1, 1, 1, 1, 1, 1, 1, 1, 1, 1, 1, 1, 1, 1, 1, 1, 1, 1, 1, 1, 1, 1, 1]]

/-- Computed checkpoint: the dots pass after the first 20 rows (certified below). -/
def dotsChk20 : Maze :=
  [[1, 1, 1, 1, 1, 1, 1, 1, 1, 1, 1, 1, 1, 1, 1, 1, 1, 1, 1, 1, 1, 1, 1, 1, 1, 1, 1, 1],
   [1, 2, 2, 2, 2, 2, 2, 2, 2, 2, 2, 2, 2, 2, 2, 2, 2, 2, 2, 2, 2, 2, 2, 2, 2, 2, 2, 1],
   [1, 2, 1, 1, 1, 1, 1, 1, 1, 1, 2, 2, 2, 2, 2, 2, 2, 2, 1, 1, 1, 1, 1, 1, 1, 1, 2, 1],
   [1, 3, 1, 2, 2, 2, 1, 2, 2, 1, 2, 2, 2, 2, 2, 2, 2, 2, 1, 2, 2, 1, 2, 2, 2, 1, 3, 1],
   [1, 2, 1, 1, 1, 1, 1, 2, 2, 1, 2, 2, 2, 2, 2, 2, 2, 2, 1, 2, 2, 1, 1, 1, 1, 1, 2, 1],
   [1, 2, 2, 2, 2, 2, 1, 2, 2, 1, 2, 2, 2, 2, 2, 2, 2, 2, 1, 2, 2, 1, 2, 2, 2, 2, 2, 1],
   [1, 2, 2, 2, 2, 2, 1, 1, 1, 1, 2, 2, 1, 2, 2, 1, 2, 2, 1, 1, 1, 1, 2, 2, 2, 2, 2, 1],
   [1, 2, 2, 2, 2, 2, 2, 2, 2, 1, 2, 2, 1, 2, 2, 1, 2, 2, 1, 2, 2, 2, 2, 2, 2, 2, 2, 1],
   [1, 2, 2, 2, 2, 2, 2, 2, 2, 1, 2, 2, 1, 2, 2, 1, 2, 2, 1, 2, 2, 2, 2, 2, 2, 2, 2, 1],
   [1, 2, 2, 2, 2, 2, 1, 1, 1, 1, 1, 1, 1, 2, 2, 1, 1, 1, 1, 1, 1, 1, 2, 2, 2, 2, 2, 1],
   [1, 2, 2, 2, 2, 2, 2, 2, 2, 2, 2, 2, 2, 2, 2, 2, 2, 2, 2, 2, 2, 2, 2, 2, 2, 2, 2, 1],
   [1, 2, 2, 2, 2, 2, 1, 2, 2, 1, 1, 1, 1, 1, 1, 1, 1, 1, 1, 2, 2, 1, 2, 2, 2, 2, 2, 1],
   [1, 2, 2, 2, 2, 2, 1, 2, 2, 2, 2, 2, 2, 2, 2, 2, 2, 2, 2, 2, 2, 1, 2, 2, 2, 2, 2, 1],
   [1, 2, 2, 2, 2, 2, 1, 2, 2, 2, 1, 1, 1, 0, 0, 1, 1, 1, 2, 2, 2, 1, 2, 2, 2, 2, 2, 1],
   [1, 2, 1, 1, 1, 1, 1, 2, 2, 2, 1, 0, 0, 0, 0, 0, 0, 1, 2, 2, 2, 1, 1, 1, 1, 1, 2, 1],
   [1, 2, 1, 2, 2, 2, 2, 2, 2, 2, 1, 1, 1, 1, 1, 1, 1, 1, 2, 2, 2, 2, 2, 2, 2, 1, 2, 1],
   [1, 2, 1, 2, 2, 2, 1, 1, 1, 1, 1, 1, 1, 2, 2, 1, 1, 1, 1, 1, 1, 1, 2, 2, 2, 1, 2, 1],
   [1, 2, 1, 2, 2, 2, 2, 2, 2, 1, 2, 2, 1, 2, 2, 1, 2, 2, 1, 2, 2, 2, 2, 2, 2, 1, 2, 1],
   [1, 2, 1, 2, 2, 2, 2, 2, 2, 1, 2, 2, 1, 2, 2, 1, 2, 2, 1, 2, 2, 2, 2, 2, 2, 1, 2, 1],
   [1, 2, 1, 2, 2, 2, 1, 1, 1, 1, 2, 2, 1, 2, 2, 1, 2, 2, 1, 1, 1, 1, 2, 2, 2, 1, 2, 1],
   [1, 0, 0, 0, 0, 0, 0, 0, 0, 0, 0, 0, 1, 0, 0, 1, 0, 0, 0, 0, 0, 0, 0, 0, 0, 0, 0, 1],
   [1, 0, 1, 1, 1, 1, 1, 0, 0, 0, 0, 0, 1, 0, 0, 1, 0, 0, 0, 0, 0, 1, 1, 1, 1, 1, 0, 1],
   [1, 0, 0, 0, 0, 0, 1, 0, 0, 0, 0, 0, 1, 0, 0, 1, 0, 0, 0, 0, 0, 1, 0, 0, 0, 0, 0, 1],
   [1, 0, 1, 1, 1, 1, 1, 1, 1, 1, 0, 0, 0, 0, 0, 0, 0, 0, 1, 1, 1, 1, 1, 1, 1, 1, 0, 1],
   [1, 0, 0, 0, 0, 0, 0, 0, 0, 0, 0, 0, 0, 0, 0, 0, 0, 0, 0, 0, 0, 0, 0, 0, 0, 0, 0, 1],
   [1, 0, 0, 0, 0, 0, 0, 0, 0, 0, 0, 0, 0, 0, 0, 0, 0, 0, 0, 0, 0, 0, 0, 0, 0, 0, 0, 1],
   [1, 0, 0, 0, 0, 0, 0, 0, 0, 0, 0, 0, 0, 0, 0, 0, 0, 0, 0, 0, 0, 0, 0, 0, 0, 0, 0, 1],
   [1, 0, 0, 0, 0, 0, 0, 0, 0, 0, 0, 0, 0, 0, 0, 0, 0, 0, 0, 0, 0, 0, 0, 0, 0, 0, 0, 1],
   [1, 0, 0, 0, 0, 0, 0, 0, 0, 0, 0, 0, 0, 0, 0, 0, 0, 0, 0, 0, 0, 0, 0, 0, 0, 0, 0, 1],
   [1, 0, 0, 0, 0, 0, 0, 0, 0, 0, 0, 0, 0, 0, 0, 0, 0, 0, 0, 0, 0, 0, 0, 0, 0, 0, 0, 1],
   [1, 1, 1, 1, 1, 1, 1, 1, 1, 1, 1, 1, 1, 1, 1, 1, 1, 1, 1, 1, 1, 1, 1, 1, 1, 1, 1, 1]]

/-- Computed checkpoint: the dots pass after the first 24 rows (certified below). -/
def dotsChk24 : Maze :=
  [[1, 1, 1, 1, 1, 1, 1, 1, 1, 1, 1, 1, 1, 1, 1, 1, 1, 1, 1, 1, 1, 1, 1, 1, 1, 1, 1, 1],
   [1, 2, 2, 2, 2, 2, 2, 2, 2, 2, 2, 2, 2, 2, 2, 2, 2, 2, 2, 2, 2, 2, 2, 2, 2, 2, 2, 1],
   [1, 2, 1, 1, 1, 1, 1, 1, 1, 1, 2, 2, 2, 2, 2, 2, 2, 2, 1, 1, 1, 1, 1, 1, 1, 1, 2, 1],
   [1, 3, 1, 2, 2, 2, 1, 2, 2, 1, 2, 2, 2, 2, 2, 2, 2, 2, 1, 2, 2, 1, 2, 2, 2, 1, 3, 1],
   [1, 2, 1, 1, 1, 1, 1, 2, 2, 1, 2, 2, 2, 2, 2, 2, 2, 2, 1, 2, 2, 1, 1, 1, 1, 1, 2, 1],
   [1, 2, 2, 2, 2, 2, 1, 2, 2, 1, 2, 2, 2, 2, 2, 2, 2, 2, 1, 2, 2, 1, 2, 2, 2, 2, 2, 1],
   [1, 2, 2, 2, 2, 2, 1, 1, 1, 1, 2, 2, 1, 2, 2, 1, 2, 2, 1, 1, 1, 1, 2, 2, 2, 2, 2, 1],
   [1, 2, 2, 2, 2, 2, 2, 2, 2, 1, 2, 2, 1, 2, 2, 1, 2, 2, 1, 2, 2, 2, 2, 2, 2, 2, 2, 1],
   [1, 2, 2, 2, 2, 2, 2, 2, 2, 1, 2, 2, 1, 2, 2, 1, 2, 2, 1, 2, 2, 2, 2, 2, 2, 2, 2, 1],
   [1, 2, 2, 2, 2, 2, 1, 1, 1, 1, 1, 1, 1, 2, 2, 1, 1, 1, 1, 1, 1, 1, 2, 2, 2, 2, 2, 1],
   [1, 2, 2, 2, 2, 2, 2, 2, 2, 2, 2, 2, 2, 2, 2, 2, 2, 2, 2, 2, 2, 2, 2, 2, 2, 2, 2, 1],
   [1, 2, 2, 2, 2, 2, 1, 2, 2, 1, 1, 1, 1, 1, 1, 1, 1, 1, 1, 2, 2, 1, 2, 2, 2, 2, 2, 1],
   [1, 2, 2, 2, 2, 2, 1, 2, 2, 2, 2, 2, 2, 2, 2, 2, 2, 2, 2, 2, 2, 1, 2, 2, 2, 2, 2, 1],
   [1, 2, 2, 2, 2, 2, 1, 2, 2, 2, 1, 1, 1, 0, 0, 1, 1, 1, 2, 2, 2, 1, 2, 2, 2, 2, 2, 1],
   [1, 2, 1, 1, 1, 1, 1, 2, 2, 2, 1, 0, 0, 0, 0, 0, 0, 1, 2, 2, 2, 1, 1, 1, 1, 1, 2, 1],
   [1, 2, 1, 2, 2, 2, 2, 2, 2, 2, 1, 1, 1, 1, 1, 1, 1, 1, 2, 2, 2, 2, 2, 2, 2, 1, 2, 1],
   [1, 2, 1, 2, 2, 2, 1, 1, 1, 1, 1, 1, 1, 2, 2, 1, 1, 1, 1, 1, 1, 1, 2, 2, 2, 1, 2, 1],
   [1, 2, 1, 2, 2, 2, 2, 2, 2, 1, 2, 2, 1, 2, 2, 1, 2, 2, 1, 2, 2, 2, 2, 2, 2, 1, 2, 1],
   [1, 2, 1, 2, 2, 2, 2, 2, 2, 1, 2, 2, 1, 2, 2, 1, 2, 2, 1, 2, 2, 2, 2, 2, 2, 1, 2, 1],
   [1, 2, 1, 2, 2, 2, 1, 1, 1, 1, 2, 2, 1, 2, 2, 1, 2, 2, 1, 1, 1, 1, 2, 2, 2, 1, 2, 1],
   [1, 2, 2, 2, 2, 2, 2, 2, 2, 2, 2, 2, 1, 2, 2, 1, 2, 2, 2, 2, 2, 2, 2, 2, 2, 2, 2, 1],
   [1, 2, 1, 1, 1, 1, 1, 2, 2, 2, 2, 2, 1, 2, 2, 1, 2, 2, 2, 2, 2, 1, 1, 1, 1, 1, 2, 1],
   [1, 2, 2, 2, 2, 2, 1, 2, 2, 2, 2, 2, 1, 2, 2, 1, 2, 2, 2, 2, 2, 1, 2, 2, 2, 2, 2, 1],
   [1, 2, 1, 1, 1, 1, 1, 1, 1, 1, 2, 2, 2, 2, 2, 2, 2, 2, 1, 1, 1, 1, 1, 1, 1, 1, 2, 1],
   [1, 0, 0, 0, 0, 0, 0, 0, 0, 0, 0, 0, 0, 0, 0, 0, 0, 0, 0, 0, 0, 0, 0, 0, 0, 0, 0, 1],
   [1, 0, 0, 0, 0, 0, 0, 0, 0, 0, 0, 0, 0, 0, 0, 0, 0, 0, 0, 0, 0, 0, 0, 0, 0, 0, 0, 1],
   [1, 0, 0, 0, 0, 0, 0, 0, 0, 0, 0, 0, 0, 0, 0, 0, 0, 0, 0, 0, 0, 0, 0, 0, 0, 0, 0, 1],
   [1, 0, 0, 0, 0, 0, 0, 0, 0, 0, 0, 0, 0, 0, 0, 0, 0, 0, 0, 0, 0, 0, 0, 0, 0, 0, 0, 1],
   [1, 0, 0, 0, 0, 0, 0, 0, 0, 0, 0, 0, 0, 0, 0, 0, 0, 0, 0, 0, 0, 0, 0, 0, 0, 0, 0, 1],
   [1, 0, 0, 0, 0, 0, 0, 0, 0, 0, 0, 0, 0, 0, 0, 0, 0, 0, 0, 0, 0, 0, 0, 0, 0, 0, 0, 1],
   [1, 1, 1, 1, 1, 1, 1, 1, 1, 1, 1, 1, 1, 1, 1, 1, 1, 1, 1, 1, 1, 1, 1, 1, 1, 1, 1, 1]]

/-- Computed checkpoint: the dots pass after the first 28 rows (certified below). -/
def dotsChk28 : Maze :=
  [[1, 1, 1, 1, 1, 1, 1, 1, 1, 1, 1, 1, 1, 1, 1, 1, 1, 1, 1, 1, 1, 1, 1, 1, 1, 1, 1, 1],
   [1, 2, 2, 2, 2, 2, 2, 2, 2, 2, 2, 2, 2, 2, 2, 2, 2, 2, 2, 2, 2, 2, 2, 2, 2, 2, 2, 1],
   [1, 2, 1, 1, 1, 1, 1, 1, 1, 1, 2, 2, 2, 2, 2, 2, 2, 2, 1, 1, 1, 1, 1, 1, 1, 1, 2, 1],
   [1, 3, 1, 2, 2, 2, 1, 2, 2, 1, 2, 2, 2, 2, 2, 2, 2, 2, 1, 2, 2, 1, 2, 2, 2, 1, 3, 1],
   [1, 2, 1, 1, 1, 1, 1, 2, 2, 1, 2, 2, 2, 2, 2, 2, 2, 2, 1, 2, 2, 1, 1, 1, 1, 1, 2, 1],
   [1, 2, 2, 2, 2, 2, 1, 2, 2, 1, 2, 2, 2, 2, 2, 2, 2, 2, 1, 2, 2, 1, 2, 2, 2, 2, 2, 1],
   [1, 2, 2, 2, 2, 2, 1, 1, 1, 1, 2, 2, 1, 2, 2, 1, 2, 2, 1, 1, 1, 1, 2, 2, 2, 2, 2, 1],
   [1, 2, 2, 2, 2, 2, 2, 2, 2, 1, 2, 2, 1, 2, 2, 1, 2, 2, 1, 2, 2, 2, 2, 2, 2, 2, 2, 1],
   [1, 2, 2, 2, 2, 2, 2, 2, 2, 1, 2, 2, 1, 2, 2, 1, 2, 2, 1, 2, 2, 2, 2, 2, 2, 2, 2, 1],
   [1, 2, 2, 2, 2, 2, 1, 1, 1, 1, 1, 1, 1, 2, 2, 1, 1, 1, 1, 1, 1, 1, 2, 2, 2, 2, 2, 1],
   [1, 2, 2, 2, 2, 2, 2, 2, 2, 2, 2, 2, 2, 2, 2, 2, 2, 2, 2, 2, 2, 2, 2, 2, 2, 2, 2, 1],
   [1, 2, 2, 2, 2, 2, 1, 2, 2, 1, 1, 1, 1, 1, 1, 1, 1, 1, 1, 2, 2, 1, 2, 2, 2, 2, 2, 1],
   [1, 2, 2, 2, 2, 2, 1, 2, 2, 2, 2, 2, 2, 2, 2, 2, 2, 2, 2, 2, 2, 1, 2, 2, 2, 2, 2, 1],
   [1, 2, 2, 2, 2, 2, 1, 2, 2, 2, 1, 1, 1, 0, 0, 1, 1, 1, 2, 2, 2, 1, 2, 2, 2, 2, 2, 1],
   [1, 2, 1, 1, 1, 1, 1, 2, 2, 2, 1, 0, 0, 0, 0, 0, 0, 1, 2, 2, 2, 1, 1, 1, 1, 1, 2, 1],
   [1, 2, 1, 2, 2, 2, 2, 2, 2, 2, 1, 1, 1, 1, 1, 1, 1, 1, 2, 2, 2, 2, 2, 2, 2, 1, 2, 1],
   [1, 2, 1, 2, 2, 2, 1, 1, 1, 1, 1, 1, 1, 2, 2, 1, 1, 1, 1, 1, 1, 1, 2, 2, 2, 1, 2, 1],
   [1, 2, 1, 2, 2, 2, 2, 2, 2, 1, 2, 2, 1, 2, 2, 1, 2, 2, 1, 2, 2, 2, 2, 2, 2, 1, 2, 1],
   [1, 2, 1, 2, 2, 2, 2, 2, 2, 1, 2, 2, 1, 2, 2, 1, 2, 2, 1, 2, 2, 2, 2, 2, 2, 1, 2, 1],
   [1, 2, 1, 2, 2, 2, 1, 1, 1, 1, 2, 2, 1, 2, 2, 1, 2, 2, 1, 1, 1, 1, 2, 2, 2, 1, 2, 1],
   [1, 2, 2, 2, 2, 2, 2, 2, 2, 2, 2, 2, 1, 2, 2, 1, 2, 2, 2, 2, 2, 2, 2, 2, 2, 2, 2, 1],
   [1, 2, 1, 1, 1, 1, 1, 2, 2, 2, 2, 2, 1, 2, 2, 1, 2, 2, 2, 2, 2, 1, 1, 1, 1, 1, 2, 1],
   [1, 2, 2, 2, 2, 2, 1, 2, 2, 2, 2, 2, 1, 2, 2, 1, 2, 2, 2, 2, 2, 1, 2, 2, 2, 2, 2, 1],
   [1, 2, 1, 1, 1, 1, 1, 1, 1, 1, 2, 2, 2, 2, 2, 2, 2, 2, 1, 1, 1, 1, 1, 1, 1, 1, 2, 1],
   [1, 2, 2, 2, 2, 2, 2, 2, 2, 2, 2, 2, 2, 2, 2, 2, 2, 2, 2, 2, 2, 2, 2, 2, 2, 2, 2, 1],
   [1, 2, 2, 2, 2, 2, 2, 2, 2, 2, 2, 2, 2, 2, 2, 2, 2, 2, 2, 2, 2, 2, 2, 2, 2, 2, 2, 1],
   [1, 2, 2, 2, 2, 2, 2, 2, 2, 2, 2, 2, 2, 2, 2, 2, 2, 2, 2, 2, 2, 2, 2, 2, 2, 2, 2, 1],
   [1, 3, 2, 2, 2, 2, 2, 2, 2, 2, 2, 2, 2, 2, 2, 2, 2, 2, 2, 2, 2, 2, 2, 2, 2, 2, 3, 1],
   [1, 0, 0, 0, 0, 0, 0, 0, 0, 0, 0, 0, 0, 0, 0, 0, 0, 0, 0, 0, 0, 0, 0, 0, 0, 0, 0, 1],
   [1, 0, 0, 0, 0, 0, 0, 0, 0, 0, 0, 0, 0, 0, 0, 0, 0, 0, 0, 0, 0, 0, 0, 0, 0, 0, 0, 1],
   [1, 1, 1, 1, 1, 1, 1, 1, 1, 1, 1, 1, 1, 1, 1, 1, 1, 1, 1, 1, 1, 1, 1, 1, 1, 1, 1, 1]]

/-- Computed checkpoint: the dots pass after the first 31 rows (certified below). -/
def dotsChk31 : Maze :=
  [[1, 1, 1, 1, 1, 1, 1, 1, 1, 1, 1, 1, 1, 1, 1, 1, 1, 1, 1, 1, 1, 1, 1, 1, 1, 1, 1, 1],
   [1, 2, 2, 2, 2, 2, 2, 2, 2, 2, 2, 2, 2, 2, 2, 2, 2, 2, 2, 2, 2, 2, 2, 2, 2, 2, 2, 1],
   [1, 2, 1, 1, 1, 1, 1, 1, 1, 1, 2, 2, 2, 2, 2, 2, 2, 2, 1, 1, 1, 1, 1, 1, 1, 1, 2, 1],
   [1, 3, 1, 2, 2, 2, 1, 2, 2, 1, 2, 2, 2, 2, 2, 2, 2, 2, 1, 2, 2, 1, 2, 2, 2, 1, 3, 1],
   [1, 2, 1, 1, 1, 1, 1, 2, 2, 1, 2, 2, 2, 2, 2, 2, 2, 2, 1, 2, 2, 1, 1, 1, 1, 1, 2, 1],
   [1, 2, 2, 2, 2, 2, 1, 2, 2, 1, 2, 2, 2, 2, 2, 2, 2, 2, 1, 2, 2, 1, 2, 2, 2, 2, 2, 1],
   [1, 2, 2, 2, 2, 2, 1, 1, 1, 1, 2, 2, 1, 2, 2, 1, 2, 2, 1, 1, 1, 1, 2, 2, 2, 2, 2, 1],
   [1, 2, 2, 2, 2, 2, 2, 2, 2, 1, 2, 2, 1, 2, 2, 1, 2, 2, 1, 2, 2, 2, 2, 2, 2, 2, 2, 1],
   [1, 2, 2, 2, 2, 2, 2, 2, 2, 1, 2, 2, 1, 2, 2, 1, 2, 2, 1, 2, 2, 2, 2, 2, 2, 2, 2, 1],
   [1, 2, 2, 2, 2, 2, 1, 1, 1, 1, 1, 1, 1, 2, 2, 1, 1, 1, 1, 1, 1, 1, 2, 2, 2, 2, 2, 1],
   [1, 2, 2, 2, 2, 2, 2, 2, 2, 2, 2, 2, 2, 2, 2, 2, 2, 2, 2, 2, 2, 2, 2, 2, 2, 2, 2, 1],
   [1, 2, 2, 2, 2, 2, 1, 2, 2, 1, 1, 1, 1, 1, 1, 1, 1, 1, 1, 2, 2, 1, 2, 2, 2, 2, 2, 1],
   [1, 2, 2, 2, 2, 2, 1, 2, 2, 2, 2, 2, 2, 2, 2, 2, 2, 2, 2, 2, 2, 1, 2, 2, 2, 2, 2, 1],
   [1, 2, 2, 2, 2, 2, 1, 2, 2, 2, 1, 1, 1, 0, 0, 1, 1, 1, 2, 2, 2, 1, 2, 2, 2, 2, 2, 1],
   [1, 2, 1, 1, 1, 1, 1, 2, 2, 2, 1, 0, 0, 0, 0, 0, 0, 1, 2, 2, 2, 1, 1, 1, 1, 1, 2, 1],
   [1, 2, 1, 2, 2, 2, 2, 2, 2, 2, 1, 1, 1, 1, 1, 1, 1, 1, 2, 2, 2, 2, 2, 2, 2, 1, 2, 1],
   [1, 2, 1, 2, 2, 2, 1, 1, 1, 1, 1, 1, 1, 2, 2, 1, 1, 1, 1, 1, 1, 1, 2, 2, 2, 1, 2, 1],
   [1, 2, 1, 2, 2, 2, 2, 2, 2, 1, 2, 2, 1, 2, 2, 1, 2, 2, 1, 2, 2, 2, 2, 2, 2, 1, 2, 1],
   [1, 2, 1, 2, 2, 2, 2, 2, 2, 1, 2, 2, 1, 2, 2, 1, 2, 2, 1, 2, 2, 2, 2, 2, 2, 1, 2, 1],
   [1, 2, 1, 2, 2, 2, 1, 1, 1, 1, 2, 2, 1, 2, 2, 1, 2, 2, 1, 1, 1, 1, 2, 2, 2, 1, 2, 1],
   [1, 2, 2, 2, 2, 2, 2, 2, 2, 2, 2, 2, 1, 2, 2, 1, 2, 2, 2, 2, 2, 2, 2, 2, 2, 2, 2, 1],
   [1, 2, 1, 1, 1, 1, 1, 2, 2, 2, 2, 2, 1, 2, 2, 1, 2, 2, 2, 2, 2, 1, 1, 1, 1, 1, 2, 1],
   [1, 2, 2, 2, 2, 2, 1, 2, 2, 2, 2, 2, 1, 2, 2, 1, 2, 2, 2, 2, 2, 1, 2, 2, 2, 2, 2, 1],
   [1, 2, 1, 1, 1, 1, 1, 1, 1, 1, 2, 2, 2, 2, 2, 2, 2, 2, 1, 1, 1, 1, 1, 1, 1, 1, 2, 1],
   [1, 2, 2, 2, 2, 2, 2, 2, 2, 2, 2, 2, 2, 2, 2, 2, 2, 2, 2, 2, 2, 2, 2, 2, 2, 2, 2, 1],
   [1, 2, 2, 2, 2, 2, 2, 2, 2, 2, 2, 2, 2, 2, 2, 2, 2, 2, 2, 2, 2, 2, 2, 2, 2, 2, 2, 1],
   [1, 2, 2, 2, 2, 2, 2, 2, 2, 2, 2, 2, 2, 2, 2, 2, 2, 2, 2, 2, 2, 2, 2, 2, 2, 2, 2, 1],
   [1, 3, 2, 2, 2, 2, 2, 2, 2, 2, 2, 2, 2, 2, 2, 2, 2, 2, 2, 2, 2, 2, 2, 2, 2, 2, 3, 1],
   [1, 2, 2, 2, 2, 2, 2, 2, 2, 2, 2, 2, 2, 2, 2, 2, 2, 2, 2, 2, 2, 2, 2, 2, 2, 2, 2, 1],
   [1, 2, 2, 2, 2, 2, 2, 2, 2, 2, 2, 2, 2, 2, 2, 2, 2, 2, 2, 2, 2, 2, 2, 2, 2, 2, 2, 1],
   [1, 1, 1, 1, 1, 1, 1, 1, 1, 1, 1, 1, 1, 1, 1, 1, 1, 1, 1, 1, 1, 1, 1, 1, 1, 1, 1, 1]]

/-- Python `int()` on a rational: truncation toward zero. -/
def pyint (q : ℚ) : ℤ := if 0 ≤ q then ⌊q⌋ else ⌈q⌉

/-- Python 3 `round()` on a rational: nearest integer, ties to even. -/
def pyround (q : ℚ) : ℤ :=
  let f := ⌊q⌋
  if q - f < 1 / 2 then f
  else if q - f > 1 / 2 then f + 1
  else if Even f then f else f + 1

/-- Squared euclidean distance; `math.hypot(ax-bx, ay-by) ⋈ c` for `c ≥ 0`
is embedded as `dist2 ax ay bx by ⋈ c^2`. -/
def dist2 (ax ay bx bY : ℚ) : ℚ := (ax - bx) ^ 2 + (ay - bY) ^ 2

/-- Bounds-guarded open-tile test of the source, Python
`0 <= gx < GRID_W and 0 <= gy < GRID_H and maze[gy][gx] != 1`. -/
def inBoundsOpen (m : Maze) (gx gy : ℤ) : Prop :=
  0 ≤ gx ∧ gx < 28 ∧ 0 ≤ gy ∧ gy < 31 ∧ mget m gy.toNat gx.toNat ≠ 1

instance (m : Maze) (gx gy : ℤ) : Decidable (inBoundsOpen m gx gy) := by
  unfold inBoundsOpen; exact inferInstance

/-- Source `frightened_duration_for_level`. -/
def frightened_duration_for_level (level : ℕ) : ℚ :=
  if level ≤ 1 then 6
  else if level ≤ 4 then 5
  else if level ≤ 8 then 4
  else if level ≤ 12 then 3
  else if level ≤ 20 then 2
  else if level ≤ 25 then 1
  else 1 / 2

/-- Global behaviour phase of the mode timeline. -/
inductive Mode
  | scatter
  | chase
  deriving DecidableEq

/-- The per-level state dictionary `level_data` of the source, with fixed
fields for its `maze`, `stats`, `timers` and `fruit` sub-dictionaries and the
`level` key set by `reset_level`. -/
structure LevelData where
  maze : Maze
  dots_eaten : ℕ
  total_pellets : ℕ
  frightened_timer : ℚ
  mode_timeline : List (Mode × ℚ)
  mode_index : ℕ
  current_mode : Mode
  mode_timer : ℚ
  fruit_spawned : ℕ
  fruit_spawns_per_level : ℕ
  fruit_active : Bool
  fruit_timer : ℚ
  fruit_points : ℕ
  level : ℕ

/-- Source `timeline` of `generate_level` (level 1 has a longer first scatter). -/
def timelineFor (level : ℕ) : List (Mode × ℚ) :=
  if level = 1 then
    [(Mode.scatter, 7), (Mode.chase, 20), (Mode.scatter, 7), (Mode.chase, 20),
     (Mode.scatter, 5), (Mode.chase, 20), (Mode.scatter, 5), (Mode.chase, -1)]
  else
    [(Mode.scatter, 5), (Mode.chase, 20), (Mode.scatter, 5), (Mode.chase, 20),
     (Mode.scatter, 5), (Mode.chase, 20), (Mode.scatter, 5), (Mode.chase, -1)]

/-- Source `ghost_speed_pct = min(1.0 + (level - 1) * 0.05, 1.6)`. -/
def ghost_pct (level : ℕ) : ℚ := min (1 + ((level : ℚ) - 1) * (1 / 20)) (8 / 5)

/-- Source `generate_level` (glitch off), including the `level` key that
`reset_level` stores into the returned dictionary. -/
def generate_level (level : ℕ) : LevelData :=
  let tl := timelineFor level
  { maze := genMaze
    dots_eaten := 0
    total_pellets := genTotalPellets
    frightened_timer := 0
    mode_timeline := tl
    mode_index := 0
    current_mode := (tl.getD 0 (Mode.scatter, 0)).1
    mode_timer := (tl.getD 0 (Mode.scatter, 0)).2
    fruit_spawned := 0
    fruit_spawns_per_level := 2
    fruit_active := false
    fruit_timer := 0
    fruit_points := 100
    level := level }

/-- The `Player` entity of the source. -/
structure Player where
  x : ℚ
  y : ℚ
  score : ℕ
  lives : ℤ
  eat_ghost_combo : ℕ
  direction : ℤ × ℤ
  next_direction : ℤ × ℤ
  speed : ℚ

/-- `Player.__init__`: spawn at (13.5, 23.5), score 0, 3 lives, combo 0. -/
def Player.init : Player :=
  { x := 27 / 2, y := 47 / 2, score := 0, lives := 3, eat_ghost_combo := 0,
    direction := (0, 0), next_direction := (0, 0), speed := 1 }

instance : Inhabited Player := ⟨Player.init⟩

/-- The held cardinal keys sampled by `Player.update`. -/
structure Keys where
  up : Bool
  down : Bool
  left : Bool
  rightK : Bool

/-- The input latch of `Player.update` (an if/elif chain, so `up` has priority). -/
def latchInput (p : Player) (k : Keys) : Player :=
  if k.up then { p with next_direction := (0, -1) }
  else if k.down then { p with next_direction := (0, 1) }
  else if k.left then { p with next_direction := (-1, 0) }
  else if k.rightK then { p with next_direction := (1, 0) }
  else p

/-- The grid-snappy turn attempt of `Player.update`: commit the queued heading
if the tile half a step ahead is open. -/
def tryTurn (m : Maze) (p : Player) : Player :=
  if p.next_direction ≠ (0, 0) then
    if inBoundsOpen m (pyint (p.x + (p.next_direction.1 : ℚ) * (1 / 2)))
        (pyint (p.y + (p.next_direction.2 : ℚ) * (1 / 2))) then
      { p with direction := p.next_direction }
    else p
  else p

/-- The movement block of `Player.update`: advance by `speed*dt*5`; on a wall
hit, snap to the rounded grid point when that itself is open, else hold. -/
def movePlayer (m : Maze) (p : Player) (dt : ℚ) : Player :=
  if p.direction ≠ (0, 0) then
    if inBoundsOpen m (pyint (p.x + (p.direction.1 : ℚ) * p.speed * dt * 5))
        (pyint (p.y + (p.direction.2 : ℚ) * p.speed * dt * 5)) then
      { p with x := p.x + (p.direction.1 : ℚ) * p.speed * dt * 5,
               y := p.y + (p.direction.2 : ℚ) * p.speed * dt * 5 }
    else
      if inBoundsOpen m (pyround p.x) (pyround p.y) then
        { p with x := (pyround p.x : ℚ), y := (pyround p.y : ℚ) }
      else p
  else p

/-- The horizontal wrap of the source: `if x < 0: x = GRID_W-1 elif x >= GRID_W: x = 0`. -/
def wrapX (x : ℚ) : ℚ := if x < 0 then 27 else if 28 ≤ x then 0 else x

/-- Apply `wrapX` to an agent position. -/
def applyWrap (p : Player) : Player := { p with x := wrapX p.x }

/-- The dot/power consumption block of `Player.update`: a pellet scores 10, a
power pellet scores 50, zeroes the ghost combo and arms the frightened timer. -/
def eatCell (p : Player) (ld : LevelData) : Player × LevelData :=
  if 0 ≤ pyint p.x ∧ pyint p.x < 28 ∧ 0 ≤ pyint p.y ∧ pyint p.y < 31 then
    if mget ld.maze (pyint p.y).toNat (pyint p.x).toNat = 2 then
      ({ p with score := p.score + 10 },
       { ld with maze := mset ld.maze (pyint p.y).toNat (pyint p.x).toNat 0,
                 dots_eaten := ld.dots_eaten + 1 })
    else if mget ld.maze (pyint p.y).toNat (pyint p.x).toNat = 3 then
      ({ p with score := p.score + 50, eat_ghost_combo := 0 },
       { ld with maze := mset ld.maze (pyint p.y).toNat (pyint p.x).toNat 0,
                 dots_eaten := ld.dots_eaten + 1,
                 frightened_timer := frightened_duration_for_level ld.level })
    else (p, ld)
  else (p, ld)

/-- `Player.update` in full: latch input, try the queued turn, move, wrap,
then consume the occupied cell. -/
def playerUpdate (p : Player) (ld : LevelData) (k : Keys) (dt : ℚ) : Player × LevelData :=
  eatCell (applyWrap (movePlayer ld.maze (tryTurn ld.maze (latchInput p k)) dt)) ld

/-- The `Ghost` entity of the source (the `color_index`/`target_func` fields
carry no simulation state: identity is the position in the ghost list and the
target is passed to the update explicitly). -/
structure Ghost where
  x : ℚ
  y : ℚ
  speed : ℚ
  base_speed : ℚ
  mode : Mode
  frightened : Bool
  eaten : Bool
  home_time : ℚ
  dir : ℤ × ℤ
  scatter_target : ℚ × ℚ

instance : Inhabited Ghost :=
  ⟨{ x := 0, y := 0, speed := 0, base_speed := 0, mode := Mode.scatter,
     frightened := false, eaten := false, home_time := 0, dir := (0, 0),
     scatter_target := (0, 0) }⟩

/-- The candidate list of the direction chooser: all four cardinals, with the
reverse of the current heading removed whenever a heading is set. -/
def dirCandidates (d : ℤ × ℤ) : List (ℤ × ℤ) :=
  let possible : List (ℤ × ℤ) := [(0, -1), (0, 1), (-1, 0), (1, 0)]
  if d ≠ (0, 0) then possible.filter (fun c => c ≠ (-d.1, -d.2)) else possible

/-- The loop body's openness test for a candidate direction: the neighbouring
point one tile along `c` lies on an in-bounds non-wall tile. -/
def candOpen (m : Maze) (x y : ℚ) (c : ℤ × ℤ) : Prop :=
  inBoundsOpen m (pyint (x + (c.1 : ℚ))) (pyint (y + (c.2 : ℚ)))

instance (m : Maze) (x y : ℚ) (c : ℤ × ℤ) : Decidable (candOpen m x y c) := by
  unfold candOpen; exact inferInstance

/-- The loop body's score for a candidate direction: squared distance from
the neighbouring point to the target (order-isomorphic to the source's
`math.hypot`). -/
def candDist (x y tx ty : ℚ) (c : ℤ × ℤ) : ℚ :=
  dist2 (x + (c.1 : ℚ)) (y + (c.2 : ℚ)) tx ty

/-- One iteration of the greedy best-direction loop of `Ghost.update`:
`none` plays the role of the initial float infinity of `best_dist`. -/
def chooseStep (m : Maze) (x y tx ty : ℚ) (acc : (ℤ × ℤ) × Option ℚ) (c : ℤ × ℤ) :
    (ℤ × ℤ) × Option ℚ :=
  if candOpen m x y c then
    match acc.2 with
    | none => (c, some (candDist x y tx ty c))
    | some bd =>
      if candDist x y tx ty c < bd then (c, some (candDist x y tx ty c)) else acc
  else acc

/-- The greedy direction selection of `Ghost.update`: the current heading is
kept when no candidate neighbouring tile is open. -/
def chooseDir (m : Maze) (x y : ℚ) (d : ℤ × ℤ) (tx ty : ℚ) : ℤ × ℤ :=
  ((dirCandidates d).foldl (chooseStep m x y tx ty) (d, none)).1

/-- The random draws consumed by a frightened ghost in one update. -/
structure GhostRand where
  jump : Bool
  newDir : ℤ × ℤ

/-- The per-frame step length of `Ghost.update`: `speed*dt*5`, halved while
frightened, doubled while eaten (the two multipliers compose). -/
def ghostSpd (g : Ghost) (dt : ℚ) : ℚ :=
  if g.eaten then
    (if g.frightened then g.speed * dt * 5 * (1 / 2) else g.speed * dt * 5) * 2
  else
    if g.frightened then g.speed * dt * 5 * (1 / 2) else g.speed * dt * 5

/-- The movement step of `Ghost.update` before the wrap. -/
def ghostMoveCore (m : Maze) (g : Ghost) (dt : ℚ) : Ghost :=
  if inBoundsOpen m (pyint (g.x + (g.dir.1 : ℚ) * ghostSpd g dt))
      (pyint (g.y + (g.dir.2 : ℚ) * ghostSpd g dt)) then
    { g with x := g.x + (g.dir.1 : ℚ) * ghostSpd g dt,
             y := g.y + (g.dir.2 : ℚ) * ghostSpd g dt }
  else g

/-- Apply `wrapX` to a ghost position. -/
def applyWrapG (g : Ghost) : Ghost := { g with x := wrapX g.x }

/-- The movement-plus-wrap tail of `Ghost.update`. -/
def ghostMove (m : Maze) (g : Ghost) (dt : ℚ) : Ghost :=
  applyWrapG (ghostMoveCore m g dt)

/-- `Ghost.update`: an eaten ghost near home snaps there and returns without
moving; a frightened ghost jitters its heading randomly; otherwise the greedy
chooser steers toward the scatter corner or the supplied chase target. -/
def ghostUpdate (m : Maze) (g : Ghost) (target : ℚ × ℚ) (r : GhostRand) (dt : ℚ) : Ghost :=
  if g.eaten then
    if dist2 g.x g.y (27 / 2) 14 < (1 / 2) ^ 2 then
      { g with eaten := false, x := 27 / 2, y := 14, dir := (0, -1) }
    else ghostMove m g dt
  else if g.frightened then
    ghostMove m (if r.jump ∨ g.dir = (0, 0) then { g with dir := r.newDir } else g) dt
  else
    ghostMove m
      { g with dir := (chooseDir m g.x g.y g.dir
          (if g.mode = Mode.scatter then g.scatter_target else target).1
          (if g.mode = Mode.scatter then g.scatter_target else target).2) }
      dt

/-- The per-frame frightened-flag assignment of the main loop:
`g.frightened = level_data["timers"]["frightened_timer"] > 0`. -/
def setFrightFlag (g : Ghost) (t : ℚ) : Ghost := { g with frightened := decide (0 < t) }

/-- Source `clamp`. -/
def clampQ (v lo hi : ℚ) : ℚ := max lo (min hi v)

/-- Source `blinky_target`. -/
def blinky_target (p : Player) : ℚ × ℚ := (p.x, p.y)

/-- Source `pinky_target`: four tiles ahead, offset left on the up quirk. -/
def pinky_target (p : Player) : ℚ × ℚ :=
  let ax := p.x + (p.direction.1 : ℚ) * 4
  let ay := p.y + (p.direction.2 : ℚ) * 4
  let ax := if p.direction = (0, -1) then ax - 4 else ax
  (clampQ ax 0 27, clampQ ay 0 30)

/-- Source `inky_target`: double the vector from Blinky to two tiles ahead. -/
def inky_target (p : Player) (blinky : Ghost) : ℚ × ℚ :=
  let ax := p.x + (p.direction.1 : ℚ) * 2
  let ay := p.y + (p.direction.2 : ℚ) * 2
  let tx := ax + (ax - blinky.x)
  let ty := ay + (ay - blinky.y)
  (clampQ tx 0 27, clampQ ty 0 30)

/-- Source `clyde_target`: chase when farther than 8 tiles, else scatter. -/
def clyde_target (p : Player) (g : Ghost) : ℚ × ℚ :=
  if dist2 g.x g.y p.x p.y > 64 then (p.x, p.y) else g.scatter_target

/-- The mode timeline tick of the main loop (source lines 686-693): decrement
the entry timer; when it is not positive, advance the index and reload only if
the new index is still inside the timeline. -/
def tickMode (ld : LevelData) (dt : ℚ) : LevelData :=
  if ld.mode_timer - dt ≤ 0 then
    if ld.mode_index + 1 < ld.mode_timeline.length then
      { ld with mode_index := ld.mode_index + 1,
                current_mode := (ld.mode_timeline.getD (ld.mode_index + 1) (Mode.chase, 0)).1,
                mode_timer := (ld.mode_timeline.getD (ld.mode_index + 1) (Mode.chase, 0)).2 }
    else { ld with mode_timer := ld.mode_timer - dt, mode_index := ld.mode_index + 1 }
  else { ld with mode_timer := ld.mode_timer - dt }

/-- The frightened countdown tick of the main loop: decrement while positive,
clamped at zero. -/
def tickFrightened (ld : LevelData) (dt : ℚ) : LevelData :=
  if ld.frightened_timer > 0 then
    { ld with frightened_timer := max 0 (ld.frightened_timer - dt) }
  else ld

/-- Source `fruit_values` table. -/
def fruit_values : List ℕ := [100, 300, 500, 700, 1000, 2000, 3000, 5000]

/-- The fruit-spawn check of the main loop (source lines 700-712); `rnd` is
the `random.random()` jitter added to the despawn timer. -/
def tickFruitSpawn (ld : LevelData) (rnd : ℚ) : LevelData :=
  if (ld.dots_eaten = 70 ∨ ld.dots_eaten = 170) ∧
      ld.fruit_spawned < ld.fruit_spawns_per_level then
    { ld with fruit_active := true, fruit_timer := 9 + rnd,
              fruit_spawned := ld.fruit_spawned + 1,
              fruit_points := fruit_values.getD (min (ld.level - 1) (fruit_values.length - 1)) 0 }
  else ld

/-- Respawn x coordinates `[13.5, 12.0, 13.5, 15.0]` used after a life loss. -/
def ghostRespawnX : List ℚ := [27 / 2, 12, 27 / 2, 15]

/-- Home-release countdowns `[0, 2, 4, 6]` (or `[0, 4, 8, 12]` at level 1)
used after a life loss. -/
def homeTimes (level : ℕ) : List ℚ := if level > 1 then [0, 2, 4, 6] else [0, 4, 8, 12]

/-- One iteration of the ghost-collision loop of the main loop (source lines
736-758), acting on the running (player, ghosts, frightened timer, game-over)
state at ghost index `i`. -/
def collideStep (level : ℕ) (st : Player × List Ghost × ℚ × Bool) (i : ℕ) :
    Player × List Ghost × ℚ × Bool :=
  if dist2 st.1.x st.1.y (st.2.1.getD i default).x (st.2.1.getD i default).y < (1 / 2) ^ 2 then
    if (st.2.1.getD i default).frightened = true ∧ (st.2.1.getD i default).eaten = false then
      ({ st.1 with score := st.1.score + 2 ^ st.1.eat_ghost_combo * 200,
                   eat_ghost_combo := st.1.eat_ghost_combo + 1 },
       st.2.1.set i { st.2.1.getD i default with eaten := true }, st.2.2.1, st.2.2.2)
    else if (st.2.1.getD i default).eaten = false ∧ (st.2.1.getD i default).frightened = false then
      if st.1.lives - 1 ≤ 0 then
        ({ st.1 with lives := st.1.lives - 1 }, st.2.1, st.2.2.1, true)
      else
        ({ st.1 with lives := st.1.lives - 1, x := 27 / 2, y := 47 / 2 },
         (List.range st.2.1.length).map (fun idx =>
           { st.2.1.getD idx default with
             x := ghostRespawnX.getD idx 0, y := 14, eaten := false,
             dir := if idx = 0 then ((0 : ℤ), (-1 : ℤ)) else (0, 0),
             home_time := (homeTimes level).getD idx 0 }),
         (0 : ℚ), st.2.2.2)
    else st
  else st

/-- The whole `for g in ghosts` collision loop of one frame. -/
def collideAll (level : ℕ) (st : Player × List Ghost × ℚ × Bool) :
    Player × List Ghost × ℚ × Bool :=
  (List.range st.2.1.length).foldl (collideStep level) st

/-- A ghost as constructed by `Ghost.__init__` inside `reset_level`, with the
scatter target and home-release countdown assigned right after construction. -/
def mkGhost (x y speed : ℚ) (st : ℚ × ℚ) (ht : ℚ) : Ghost :=
  { x := x, y := y, speed := speed, base_speed := speed, mode := Mode.scatter,
    frightened := false, eaten := false, home_time := ht, dir := (0, 0),
    scatter_target := st }

/-- Source `reset_level` (glitch off): fresh level data, a fresh `Player`, and
the four ghosts with their scatter corners and staggered release times. -/
def reset_level (level : ℕ) : Player × List Ghost × LevelData :=
  let ld := generate_level level
  let gspeed := (59 / 50) * ghost_pct level
  let gs := [mkGhost (27 / 2) (23 / 2) gspeed (25, 3) 0,
             mkGhost 12 14 gspeed (3, 3) (if level > 1 then 2 else 4),
             mkGhost (27 / 2) 14 gspeed (25, 28) (if level > 1 then 4 else 8),
             mkGhost 15 14 gspeed (3, 28) (if level > 1 then 6 else 12)]
  (Player.init, gs, ld)

/-- The session state of the main loop around the per-frame update: the
current player object, level number, high score, one-shot bonus-life flag,
level data and ghost list. -/
structure GameState where
  player : Player
  level : ℕ
  high_score : ℕ
  bonus_life_awarded : Bool
  ld : LevelData
  ghosts : List Ghost

/-- The level-clear block of the main loop (source lines 761-772): when the
eaten count reaches the total, add the `100 * level` bonus to the current
player object, advance the level (wrapping 256 to 1), and call `reset_level`,
which replaces the player, ghosts and level data wholesale. -/
def levelClearStep (gs : GameState) : GameState :=
  if gs.ld.dots_eaten ≥ gs.ld.total_pellets then
    { player := (reset_level (if gs.level + 1 > 256 then 1 else gs.level + 1)).1,
      level := if gs.level + 1 > 256 then 1 else gs.level + 1,
      high_score := gs.high_score,
      bonus_life_awarded := gs.bonus_life_awarded,
      ld := (reset_level (if gs.level + 1 > 256 then 1 else gs.level + 1)).2.2,
      ghosts := (reset_level (if gs.level + 1 > 256 then 1 else gs.level + 1)).2.1 }
  else gs

/-- A concrete level-1 `LevelData` as produced at level start, the base state
of several concrete theorems below. -/
def ldBase : LevelData := generate_level 1

/-- The level-1 state with the mode timeline at its final entry: entry 7 of
`timelineFor 1` is `(chase, -1)`, and its duration -1 was loaded into
`mode_timer` when the entry became active. -/
def ldFinalEntry : LevelData :=
  { ldBase with mode_index := 7, current_mode := Mode.chase, mode_timer := -1 }

/-- Blinky as constructed by `reset_level` at level 1 (first ghost of the
list): position (13.5, 11.5), speed `1.18 * 1.0`, scatter corner (25, 3). -/
def blinky0 : Ghost := mkGhost (27 / 2) (23 / 2) (59 / 50) (25, 3) 0

/-- The player standing on the power-pellet tile (1, 3). -/
def pPower : Player := { Player.init with x := 3 / 2, y := 7 / 2 }

/-- No cardinal key held. -/
def keysNone : Keys := { up := false, down := false, left := false, rightK := false }

/-- Pinky as constructed by `reset_level` at level 1: position (12, 14),
inside the ghost house on a non-wall tile. -/
def pinky0 : Ghost := mkGhost 12 14 (59 / 50) (3, 3) 4

/-- A frightened, not yet eaten ghost sitting on the player spawn tile. -/
def gFright : Ghost :=
  { mkGhost (27 / 2) (47 / 2) 1 (25, 3) 0 with frightened := true }

/-- Collision-loop state: the player coincident with one frightened ghost,
while the frightened countdown still has 3 seconds left. -/
def stF : Player × List Ghost × ℚ × Bool := (Player.init, [gFright], 3, false)

/-- Collision-loop state: the player coincident with all four pursuers, all
frightened, within a single frame. -/
def st4 : Player × List Ghost × ℚ × Bool :=
  (Player.init, [gFright, gFright, gFright, gFright], 3, false)

/-- A level whose pellets have all been consumed. -/
def ldDone : LevelData := { ldBase with dots_eaten := 558, total_pellets := 558 }

/-- Session state an instant before completing level 1 with score 1000. -/
def gsClear1 : GameState :=
  { player := { Player.init with score := 1000 }, level := 1, high_score := 0,
    bonus_life_awarded := false, ld := ldDone, ghosts := [] }

/-- Session state an instant before completing level 256. -/
def gsClear256 : GameState := { gsClear1 with level := 256 }

/-- Session state an instant before completing level 1 with a live ghost-eaten
combo of 2. -/
def gsCombo : GameState :=
  { gsClear1 with player := { Player.init with score := 1000, eat_ghost_combo := 2 } }

/-- Session state an instant before completing level 7, with nontrivial
score, lives, combo, high score and bonus-life flag. -/
def gsLevel7 : GameState :=
  { player := { Player.init with score := 4321, lives := 2, eat_ghost_combo := 3 },
    level := 7, high_score := 9999, bonus_life_awarded := true, ld := ldDone, ghosts := [] }

/-!
Certification of the computed maze checkpoints against the source
translation. Each chunk of the dots pass is evaluated separately to keep
definitional unfolding shallow.
-/

set_option maxRecDepth 4000 in
theorem mazeWalls_eq : mazeWalls = wallsChk := by decide

set_option maxRecDepth 4000 in
theorem dotsChk4_eq : (List.range' 0 4).foldl dotsRow (wallsChk, 0) = (dotsChk4, 56) := by decide

set_option maxRecDepth 4000 in
theorem dotsChk8_eq : (List.range' 4 4).foldl dotsRow (dotsChk4, 56) = (dotsChk8, 130) := by decide

set_option maxRecDepth 4000 in
theorem dotsChk12_eq : (List.range' 8 4).foldl dotsRow (dotsChk8, 130) = (dotsChk12, 204) := by decide

set_option maxRecDepth 4000 in
theorem dotsChk16_eq : (List.range' 12 4).foldl dotsRow (dotsChk12, 204) = (dotsChk16, 268) := by decide

set_option maxRecDepth 4000 in
theorem dotsChk20_eq : (List.range' 16 4).foldl dotsRow (dotsChk16, 268) = (dotsChk20, 332) := by decide

set_option maxRecDepth 4000 in
theorem dotsChk24_eq : (List.range' 20 4).foldl dotsRow (dotsChk20, 332) = (dotsChk24, 402) := by decide

set_option maxRecDepth 4000 in
theorem dotsChk28_eq : (List.range' 24 4).foldl dotsRow (dotsChk24, 402) = (dotsChk28, 506) := by decide

set_option maxRecDepth 4000 in
theorem dotsChk31_eq : (List.range' 28 3).foldl dotsRow (dotsChk28, 506) = (dotsChk31, 558) := by decide

theorem range31_split : List.range 31 =
    List.range' 0 4 ++ (List.range' 4 4 ++ (List.range' 8 4 ++ (List.range' 12 4 ++
    (List.range' 16 4 ++ (List.range' 20 4 ++ (List.range' 24 4 ++ List.range' 28 3)))))) := by
  decide

/-- The dots pass of `generate_level` on the wall skeleton, fully evaluated. -/
theorem addDots_eval : addDots mazeWalls = (dotsChk31, 558) := by
  unfold addDots GRID_H
  rw [mazeWalls_eq, range31_split, List.foldl_append, dotsChk4_eq, List.foldl_append,
      dotsChk8_eq, List.foldl_append, dotsChk12_eq, List.foldl_append, dotsChk16_eq,
      List.foldl_append, dotsChk20_eq, List.foldl_append, dotsChk24_eq, List.foldl_append,
      dotsChk28_eq, dotsChk31_eq]

/-- The generated maze, as a literal grid. -/
theorem genMaze_eq : genMaze = dotsChk31 := by
  unfold genMaze; rw [addDots_eval]; rfl

/-- The generated level has 558 pellets. -/
theorem genTotalPellets_eq : genTotalPellets = 558 := by
  unfold genTotalPellets; rw [addDots_eval]; rfl

/-! Basic list-update and rounding lemmas. -/

theorem getD_set {α : Type} (l : List α) (i j : ℕ) (v d : α) :
    (l.set i v).getD j d = if i = j ∧ i < l.length then v else l.getD j d := by
  induction l generalizing i j with
  | nil => simp
  | cons a as ih =>
    cases i with
    | zero =>
      cases j with
      | zero => simp
      | succ j => simp
    | succ i =>
      cases j with
      | zero => simp
      | succ j =>
        simp only [List.set, List.getD_cons_succ, List.length_cons, ih]
        split_ifs <;> first | rfl | omega

theorem mget_mset_ne_one {m : Maze} {y x v yq xq : ℕ} (hv : v ≠ 1)
    (h : mget m yq xq ≠ 1) : mget (mset m y x v) yq xq ≠ 1 := by
  unfold mget mset at *
  rw [getD_set]
  split_ifs with h1
  · obtain ⟨rfl, -⟩ := h1
    rw [getD_set]
    split_ifs with h2
    · exact hv
    · exact h
  · exact h

theorem pyint_intCast (n : ℤ) : pyint (n : ℚ) = n := by
  unfold pyint; split_ifs <;> simp

theorem pyint_eq_floor {q : ℚ} (h : 0 ≤ q) : pyint q = ⌊q⌋ := if_pos h

theorem wrapX_eq_self {x : ℚ} (h0 : 0 ≤ x) (h28 : x < 28) : wrapX x = x := by
  unfold wrapX
  rw [if_neg (by linarith), if_neg (by linarith)]

/-- A bounds-guarded open tile forces the continuous coordinates into the
grid rectangle, provided the border rows and columns of the maze are walls. -/
theorem open_bounds {m : Maze} {nx ny : ℚ}
    (hcol0 : ∀ y : ℕ, y < 31 → mget m y 0 = 1)
    (hrow0 : ∀ x : ℕ, x < 28 → mget m 0 x = 1)
    (h : inBoundsOpen m (pyint nx) (pyint ny)) :
    0 ≤ nx ∧ nx < 28 ∧ 0 ≤ ny ∧ ny < 31 := by
  obtain ⟨h1, h2, h3, h4, h5⟩ := h
  have hxnn : 0 ≤ nx := by
    by_contra hneg
    push_neg at hneg
    have hx : pyint nx = ⌈nx⌉ := if_neg (by linarith)
    have hle : ⌈nx⌉ ≤ (0 : ℤ) := Int.ceil_le.mpr (by exact_mod_cast hneg.le)
    have hz : pyint nx = 0 := le_antisymm (hx ▸ hle) h1
    have hy31 : (pyint ny).toNat < 31 := by omega
    exact h5 (by rw [hz]; exact hcol0 _ hy31)
  have hynn : 0 ≤ ny := by
    by_contra hneg
    push_neg at hneg
    have hy : pyint ny = ⌈ny⌉ := if_neg (by linarith)
    have hle : ⌈ny⌉ ≤ (0 : ℤ) := Int.ceil_le.mpr (by exact_mod_cast hneg.le)
    have hz : pyint ny = 0 := le_antisymm (hy ▸ hle) h3
    have hx28 : (pyint nx).toNat < 28 := by omega
    exact h5 (by rw [hz]; exact hrow0 _ hx28)
  refine ⟨hxnn, ?_, hynn, ?_⟩
  · rw [pyint_eq_floor hxnn] at h2
    have := Int.floor_lt.mp h2
    exact_mod_cast this
  · rw [pyint_eq_floor hynn] at h4
    have := Int.floor_lt.mp h4
    exact_mod_cast this

/-- Claim C2, as stated, is false on the code: with the final timeline entry
(index 7, the chase entry of duration -1) active, the next frame still
decrements the timer, finds it nonpositive and increments the entry index to
8; the index does not freeze at the final entry. -/
theorem c2_counterexample :
    ldFinalEntry.mode_index = 7 ∧
    ldFinalEntry.mode_timeline.length = 8 ∧
    (ldFinalEntry.mode_timeline.getD 7 (Mode.chase, 0)).2 = -1 ∧
    (tickMode ldFinalEntry (1 / 60)).mode_index = 8 := by
  refine ⟨rfl, by decide, by with_unfolding_all decide, ?_⟩
  show (tickMode ldFinalEntry (1 / 60)).mode_index = 8
  with_unfolding_all decide

/-- Claim C2 (amended): on every frame (any state and any delta) the
mode-timeline index is monotonically non-decreasing, but it does not freeze
at the final entry: once the final entry is active (its loaded duration -1
makes the remaining time nonpositive), every further frame with nonnegative
delta advances the index by one while the current mode stays unchanged (no
entry is reloaded) and the timer stays nonpositive. -/
theorem c2_mode_timeline_amended (ld : LevelData) (dt : ℚ) :
    ld.mode_index ≤ (tickMode ld dt).mode_index ∧
    (ld.mode_timeline.length - 1 ≤ ld.mode_index → ld.mode_timer ≤ 0 → 0 ≤ dt →
      (tickMode ld dt).mode_index = ld.mode_index + 1 ∧
      (tickMode ld dt).current_mode = ld.current_mode ∧
      (tickMode ld dt).mode_timer ≤ 0) := by
  constructor
  · unfold tickMode
    split_ifs <;> simp
  · intro hlen htimer hdt
    have hfire : ld.mode_timer - dt ≤ 0 := by linarith
    unfold tickMode
    rw [if_pos hfire, if_neg (by omega)]
    exact ⟨by simp, by simp, by simp; linarith⟩

/-- Witness for `c2_mode_timeline_amended` at the concrete final-entry
state, with the final-entry hypotheses discharged. -/
theorem c2_witness :
    ldFinalEntry.mode_index ≤ (tickMode ldFinalEntry (1 / 60)).mode_index ∧
    ((tickMode ldFinalEntry (1 / 60)).mode_index = ldFinalEntry.mode_index + 1 ∧
     (tickMode ldFinalEntry (1 / 60)).current_mode = ldFinalEntry.current_mode ∧
     (tickMode ldFinalEntry (1 / 60)).mode_timer ≤ 0) :=
  ⟨(c2_mode_timeline_amended ldFinalEntry (1 / 60)).1,
   (c2_mode_timeline_amended ldFinalEntry (1 / 60)).2 (by decide)
     (by with_unfolding_all decide) (by with_unfolding_all decide)⟩

/-- Claim C4, as stated, is false on the code: the configured frightened
duration for level 5 is 4.0 seconds, not the 5.0 seconds the claim asserts
(and for level 9 it is 3.0, not 4.0). -/
theorem c4_counterexample :
    frightened_duration_for_level 5 = 4 ∧ ¬ frightened_duration_for_level 5 = 5 ∧
    frightened_duration_for_level 9 = 3 ∧ ¬ frightened_duration_for_level 9 = 4 := by
  refine ⟨?_, ?_, ?_, ?_⟩ <;> with_unfolding_all decide

/-- Claim C4 (amended): consuming a PowerPellet cell resets the ghost-eaten
combo to 0, scores 50, counts the pellet, and arms the frightened countdown
with the level's configured duration, which for levels 1, 5, 9, 21 and 26 is
6.0, 4.0, 3.0, 1.0 and 0.5 seconds respectively. -/
theorem c4_power_pellet_amended (p : Player) (ld : LevelData)
    (hx0 : 0 ≤ pyint p.x) (hx : pyint p.x < 28)
    (hy0 : 0 ≤ pyint p.y) (hy : pyint p.y < 31)
    (hcell : mget ld.maze (pyint p.y).toNat (pyint p.x).toNat = 3) :
    (eatCell p ld).1.eat_ghost_combo = 0 ∧
    (eatCell p ld).2.frightened_timer = frightened_duration_for_level ld.level ∧
    (eatCell p ld).1.score = p.score + 50 ∧
    (eatCell p ld).2.dots_eaten = ld.dots_eaten + 1 ∧
    frightened_duration_for_level 1 = 6 ∧ frightened_duration_for_level 5 = 4 ∧
    frightened_duration_for_level 9 = 3 ∧ frightened_duration_for_level 21 = 1 ∧
    frightened_duration_for_level 26 = 1 / 2 := by
  have h2 : ¬ mget ld.maze (pyint p.y).toNat (pyint p.x).toNat = 2 := by
    rw [hcell]; decide
  unfold eatCell
  rw [if_pos ⟨hx0, hx, hy0, hy⟩, if_neg h2, if_pos hcell]
  refine ⟨rfl, rfl, rfl, rfl, ?_, ?_, ?_, ?_, ?_⟩ <;> with_unfolding_all decide

set_option maxRecDepth 2000 in
/-- Witness for `c4_power_pellet_amended`: the player on the power-pellet
tile (1, 3) of the generated maze. -/
theorem c4_witness :
    (eatCell pPower ldBase).1.eat_ghost_combo = 0 ∧
    (eatCell pPower ldBase).2.frightened_timer =
      frightened_duration_for_level ldBase.level ∧
    (eatCell pPower ldBase).1.score = pPower.score + 50 ∧
    (eatCell pPower ldBase).2.dots_eaten = ldBase.dots_eaten + 1 ∧
    frightened_duration_for_level 1 = 6 ∧ frightened_duration_for_level 5 = 4 ∧
    frightened_duration_for_level 9 = 3 ∧ frightened_duration_for_level 21 = 1 ∧
    frightened_duration_for_level 26 = 1 / 2 :=
  c4_power_pellet_amended pPower ldBase (by with_unfolding_all decide)
    (by with_unfolding_all decide) (by with_unfolding_all decide)
    (by with_unfolding_all decide)
    (by
      simp only [ldBase, generate_level]
      rw [genMaze_eq]
      with_unfolding_all decide)

/-- Claim C9, as stated, is false on the code: the spawn window at 70 eaten
pellets fires again on the very next frame while the count is still 70, so a
single window can consume both per-level spawns. -/
theorem c9_counterexample :
    (tickFruitSpawn { ldBase with dots_eaten := 70 } 0).fruit_spawned = 1 ∧
    (tickFruitSpawn { ldBase with dots_eaten := 70 } 0).dots_eaten = 70 ∧
    (tickFruitSpawn (tickFruitSpawn { ldBase with dots_eaten := 70 } 0) 0).fruit_spawned = 2 := by
  refine ⟨?_, ?_, ?_⟩ <;> with_unfolding_all decide

/-- Claim C9 (amended): the bonus item spawns exactly when the pellet count
is 70 or 170 and fewer spawns than the per-level cap of two have occurred;
the spawn count never exceeds the cap and the item's value is the fixed
ascending table indexed by level, clamped at the last entry — but a single
window can fire on consecutive frames (up to the cap) while the count stays
at the trigger value, so each window does not fire at most once. -/
theorem c9_fruit_amended (ld : LevelData) (rnd : ℚ) :
    ((ld.dots_eaten = 70 ∨ ld.dots_eaten = 170) ∧
        ld.fruit_spawned < ld.fruit_spawns_per_level →
      (tickFruitSpawn ld rnd).fruit_active = true ∧
      (tickFruitSpawn ld rnd).fruit_spawned = ld.fruit_spawned + 1 ∧
      (tickFruitSpawn ld rnd).fruit_points =
        fruit_values.getD (min (ld.level - 1) (fruit_values.length - 1)) 0) ∧
    (¬ ((ld.dots_eaten = 70 ∨ ld.dots_eaten = 170) ∧
        ld.fruit_spawned < ld.fruit_spawns_per_level) →
      tickFruitSpawn ld rnd = ld) ∧
    (ld.fruit_spawned ≤ ld.fruit_spawns_per_level →
      (tickFruitSpawn ld rnd).fruit_spawned ≤ ld.fruit_spawns_per_level) := by
  unfold tickFruitSpawn
  split_ifs with h
  · exact ⟨fun _ => ⟨rfl, rfl, rfl⟩, fun hn => absurd h hn, fun _ => by simp; omega⟩
  · exact ⟨fun hc => absurd hc h, fun _ => rfl, fun hle => hle⟩

/-- Witness for `c9_fruit_amended` at the 70-pellet state. -/
theorem c9_witness :
    (tickFruitSpawn { ldBase with dots_eaten := 70 } 0).fruit_active = true ∧
    (tickFruitSpawn { ldBase with dots_eaten := 70 } 0).fruit_spawned =
      ({ ldBase with dots_eaten := 70 } : LevelData).fruit_spawned + 1 ∧
    (tickFruitSpawn { ldBase with dots_eaten := 70 } 0).fruit_points =
      fruit_values.getD
        (min (({ ldBase with dots_eaten := 70 } : LevelData).level - 1)
          (fruit_values.length - 1)) 0 ∧
    (tickFruitSpawn { ldBase with dots_eaten := 70 } 0).fruit_spawned ≤
      ({ ldBase with dots_eaten := 70 } : LevelData).fruit_spawns_per_level := by
  have h := c9_fruit_amended { ldBase with dots_eaten := 70 } 0
  obtain ⟨h1, h2, h3⟩ := h.1 (by decide)
  exact ⟨h1, h2, h3, h.2.2 (by decide)⟩

/-- On a close encounter with a frightened, not yet eaten ghost, the
collision loop takes exactly the capture branch of the source. -/
theorem collideStep_capture (level : ℕ) (st : Player × List Ghost × ℚ × Bool) (i : ℕ)
    (hclose : dist2 st.1.x st.1.y (st.2.1.getD i default).x (st.2.1.getD i default).y
      < (1 / 2) ^ 2)
    (hfr : (st.2.1.getD i default).frightened = true)
    (hne : (st.2.1.getD i default).eaten = false) :
    collideStep level st i =
      ({ st.1 with score := st.1.score + 2 ^ st.1.eat_ghost_combo * 200,
                   eat_ghost_combo := st.1.eat_ghost_combo + 1 },
       st.2.1.set i { st.2.1.getD i default with eaten := true },
       st.2.2.1, st.2.2.2) := by
  unfold collideStep
  rw [if_pos hclose, if_pos ⟨hfr, hne⟩]

/-- Claim C5: capturing a frightened, not yet eaten pursuer marks it eaten,
adds `200 * 2 ^ comboCount` to the score and increments the combo; in one
frame with all four pursuers frightened and coincident, the four successive
captures score 200, 400, 800 and 1600 (running totals 200, 600, 1400,
3000). -/
theorem c5_eat_frightened (level : ℕ) (st : Player × List Ghost × ℚ × Bool) (i : ℕ)
    (hi : i < st.2.1.length)
    (hclose : dist2 st.1.x st.1.y (st.2.1.getD i default).x (st.2.1.getD i default).y
      < (1 / 2) ^ 2)
    (hfr : (st.2.1.getD i default).frightened = true)
    (hne : (st.2.1.getD i default).eaten = false) :
    ((collideStep level st i).1.score = st.1.score + 2 ^ st.1.eat_ghost_combo * 200 ∧
     (collideStep level st i).1.eat_ghost_combo = st.1.eat_ghost_combo + 1 ∧
     ((collideStep level st i).2.1.getD i default).eaten = true) ∧
    ((collideStep 1 st4 0).1.score = 200 ∧
     (collideStep 1 (collideStep 1 st4 0) 1).1.score = 600 ∧
     (collideStep 1 (collideStep 1 (collideStep 1 st4 0) 1) 2).1.score = 1400 ∧
     (collideAll 1 st4).1.score = 3000 ∧
     (collideAll 1 st4).1.eat_ghost_combo = 4) := by
  constructor
  · rw [collideStep_capture level st i hclose hfr hne]
    refine ⟨rfl, rfl, ?_⟩
    show ((st.2.1.set i _).getD i default).eaten = true
    rw [getD_set]
    rw [if_pos ⟨rfl, hi⟩]
  · refine ⟨?_, ?_, ?_, ?_, ?_⟩ <;> with_unfolding_all decide

/-- Witness for `c5_eat_frightened` at the single-frightened-ghost state. -/
theorem c5_witness :
    ((collideStep 1 stF 0).1.score = stF.1.score + 2 ^ stF.1.eat_ghost_combo * 200 ∧
     (collideStep 1 stF 0).1.eat_ghost_combo = stF.1.eat_ghost_combo + 1 ∧
     ((collideStep 1 stF 0).2.1.getD 0 default).eaten = true) ∧
    ((collideStep 1 st4 0).1.score = 200 ∧
     (collideStep 1 (collideStep 1 st4 0) 1).1.score = 600 ∧
     (collideStep 1 (collideStep 1 (collideStep 1 st4 0) 1) 2).1.score = 1400 ∧
     (collideAll 1 st4).1.score = 3000 ∧
     (collideAll 1 st4).1.eat_ghost_combo = 4) :=
  c5_eat_frightened 1 stF 0 (by decide) (by with_unfolding_all decide)
    (by decide) (by decide)

/-- Claim C3, as stated, is false on the code: capturing a frightened ghost
sets Eaten without clearing Frightened, the per-frame flag assignment keeps
Frightened true while the countdown is positive, and for such a ghost the
speed multipliers compose to 1x base speed, not the 2x the Eaten rule
claims. -/
theorem c3_counterexample :
    (setFrightFlag ((collideStep 1 stF 0).2.1.getD 0 default) 3).eaten = true ∧
    (setFrightFlag ((collideStep 1 stF 0).2.1.getD 0 default) 3).frightened = true ∧
    ghostSpd (setFrightFlag ((collideStep 1 stF 0).2.1.getD 0 default) 3) 1 = 5 ∧
    ¬ ghostSpd (setFrightFlag ((collideStep 1 stF 0).2.1.getD 0 default) 3) 1 =
        (setFrightFlag ((collideStep 1 stF 0).2.1.getD 0 default) 3).speed * 1 * 5 * 2 := by
  refine ⟨?_, ?_, ?_, ?_⟩ <;> with_unfolding_all decide

/-- Claim C3 (amended): Frightened and Eaten are not mutually exclusive —
the capture branch sets Eaten and leaves the Frightened flag unchanged (still
true), and the flag assignment makes Frightened track only the countdown; the
per-step speed is `speed*dt*5` times 1/2 if Frightened times 2 if Eaten, so
an Eaten pursuer moves at twice base speed only when not Frightened, and at
exactly base speed while also Frightened. -/
theorem c3_frightened_eaten_amended (level : ℕ) (st : Player × List Ghost × ℚ × Bool)
    (i : ℕ) (hi : i < st.2.1.length)
    (hclose : dist2 st.1.x st.1.y (st.2.1.getD i default).x (st.2.1.getD i default).y
      < (1 / 2) ^ 2)
    (hfr : (st.2.1.getD i default).frightened = true)
    (hne : (st.2.1.getD i default).eaten = false) :
    (((collideStep level st i).2.1.getD i default).eaten = true ∧
     ((collideStep level st i).2.1.getD i default).frightened = true) ∧
    (∀ (g : Ghost) (t : ℚ), 0 < t → (setFrightFlag g t).frightened = true) ∧
    (∀ (g : Ghost) (dt : ℚ), g.eaten = true → g.frightened = true →
      ghostSpd g dt = g.speed * dt * 5) ∧
    (∀ (g : Ghost) (dt : ℚ), g.eaten = true → g.frightened = false →
      ghostSpd g dt = g.speed * dt * 5 * 2) := by
  refine ⟨?_, ?_, ?_, ?_⟩
  · rw [collideStep_capture level st i hclose hfr hne]
    constructor
    · show ((st.2.1.set i _).getD i default).eaten = true
      rw [getD_set, if_pos ⟨rfl, hi⟩]
    · show ((st.2.1.set i _).getD i default).frightened = true
      rw [getD_set, if_pos ⟨rfl, hi⟩]
      exact hfr
  · intro g t ht
    unfold setFrightFlag
    simp [ht]
  · intro g dt he hf
    unfold ghostSpd
    rw [he, hf]
    simp
  · intro g dt he hf
    unfold ghostSpd
    rw [he, hf]
    simp

/-- Witness for `c3_frightened_eaten_amended` at the single-frightened-ghost
state. -/
theorem c3_witness :
    (((collideStep 1 stF 0).2.1.getD 0 default).eaten = true ∧
     ((collideStep 1 stF 0).2.1.getD 0 default).frightened = true) ∧
    (∀ (g : Ghost) (t : ℚ), 0 < t → (setFrightFlag g t).frightened = true) ∧
    (∀ (g : Ghost) (dt : ℚ), g.eaten = true → g.frightened = true →
      ghostSpd g dt = g.speed * dt * 5) ∧
    (∀ (g : Ghost) (dt : ℚ), g.eaten = true → g.frightened = false →
      ghostSpd g dt = g.speed * dt * 5 * 2) :=
  c3_frightened_eaten_amended 1 stF 0 (by decide) (by with_unfolding_all decide)
    (by decide) (by decide)

/-- Claim C10: completing a level recreates the player, so score, lives and
combo return to their initial values 0, 3 and 0, while the level number (with
the 256-to-1 wrap), the high score and the one-shot bonus-life flag carry
over. -/
theorem c10_level_reset (gs : GameState)
    (h : gs.ld.dots_eaten ≥ gs.ld.total_pellets) :
    (levelClearStep gs).player.score = 0 ∧
    (levelClearStep gs).player.lives = 3 ∧
    (levelClearStep gs).player.eat_ghost_combo = 0 ∧
    (levelClearStep gs).level = (if gs.level + 1 > 256 then 1 else gs.level + 1) ∧
    (levelClearStep gs).high_score = gs.high_score ∧
    (levelClearStep gs).bonus_life_awarded = gs.bonus_life_awarded := by
  unfold levelClearStep
  rw [if_pos h]
  refine ⟨?_, ?_, ?_, rfl, rfl, rfl⟩ <;> simp [reset_level, Player.init]

/-- Witness for `c10_level_reset` at the completed level 7. -/
theorem c10_witness :
    (levelClearStep gsLevel7).player.score = 0 ∧
    (levelClearStep gsLevel7).player.lives = 3 ∧
    (levelClearStep gsLevel7).player.eat_ghost_combo = 0 ∧
    (levelClearStep gsLevel7).level =
      (if gsLevel7.level + 1 > 256 then 1 else gsLevel7.level + 1) ∧
    (levelClearStep gsLevel7).high_score = gsLevel7.high_score ∧
    (levelClearStep gsLevel7).bonus_life_awarded = gsLevel7.bonus_life_awarded :=
  c10_level_reset gsLevel7 (by decide)

/-- Claim C8 contradicted by the code: completing level 1 with a live combo
of 2 leaves the next level's combo at 0, because `reset_level` recreates the
`Player` object (the same recreation that also discards the score the level
bonus was just added to). -/
theorem c8_code_behavior :
    gsCombo.player.eat_ghost_combo = 2 ∧
    gsCombo.ld.dots_eaten = gsCombo.ld.total_pellets ∧
    (levelClearStep gsCombo).player.eat_ghost_combo = 0 ∧
    (levelClearStep gsCombo).player.score = 0 := by
  refine ⟨rfl, rfl, ?_, ?_⟩ <;> decide

/-- Claim C7 contradicted by the code: the completion frame advances the
level (with the 256-to-1 wrap) and resets the pellet count, so it cannot
re-fire for the new level, but the awarded `100 * level` bonus is destroyed
in the same frame: `reset_level` replaces the player, leaving the post-frame
score at 0 rather than at the old score plus the bonus. -/
theorem c7_code_behavior :
    (levelClearStep gsClear1).level = 2 ∧
    (levelClearStep gsClear1).ld.dots_eaten = 0 ∧
    (levelClearStep gsClear1).ld.total_pellets = 558 ∧
    ¬ (levelClearStep gsClear1).ld.dots_eaten ≥ (levelClearStep gsClear1).ld.total_pellets ∧
    (levelClearStep gsClear1).player.score = 0 ∧
    ¬ (levelClearStep gsClear1).player.score = gsClear1.player.score + 100 * gsClear1.level ∧
    (levelClearStep gsClear256).level = 1 := by
  have h2 : (levelClearStep gsClear1).ld.total_pellets = 558 := by
    have hcond : gsClear1.ld.dots_eaten ≥ gsClear1.ld.total_pellets := by decide
    unfold levelClearStep
    rw [if_pos hcond]
    show (reset_level 2).2.2.total_pellets = 558
    simp only [reset_level, generate_level]
    exact genTotalPellets_eq
  refine ⟨by decide, by decide, h2, ?_, by decide, by decide, by decide⟩
  rw [h2]
  have h1 : (levelClearStep gsClear1).ld.dots_eaten = 0 := by decide
  rw [h1]
  decide

/-! Position-invariance lemmas for the player update pipeline. -/

theorem latchInput_pos (p : Player) (k : Keys) :
    (latchInput p k).x = p.x ∧ (latchInput p k).y = p.y := by
  unfold latchInput; split_ifs <;> exact ⟨rfl, rfl⟩

theorem tryTurn_pos (m : Maze) (p : Player) :
    (tryTurn m p).x = p.x ∧ (tryTurn m p).y = p.y := by
  unfold tryTurn; split_ifs <;> exact ⟨rfl, rfl⟩

theorem eatCell_fst_pos (p : Player) (ld : LevelData) :
    (eatCell p ld).1.x = p.x ∧ (eatCell p ld).1.y = p.y := by
  unfold eatCell; split_ifs <;> exact ⟨rfl, rfl⟩

theorem eatCell_maze_ne_one (p : Player) (ld : LevelData) {yq xq : ℕ}
    (h : mget ld.maze yq xq ≠ 1) : mget (eatCell p ld).2.maze yq xq ≠ 1 := by
  unfold eatCell
  split_ifs with h1 h2 h3
  · exact mget_mset_ne_one (by decide) h
  · exact mget_mset_ne_one (by decide) h
  · exact h
  · exact h

/-- The movement block of `Player.update` keeps the player on a non-wall,
in-bounds tile, provided the maze's border row 0 and column 0 are walls. -/
theorem movePlayer_inv (m : Maze) (p : Player) (dt : ℚ)
    (hcol0 : ∀ y : ℕ, y < 31 → mget m y 0 = 1)
    (hrow0 : ∀ x : ℕ, x < 28 → mget m 0 x = 1)
    (hx0 : 0 ≤ p.x) (hx : p.x < 28) (hy0 : 0 ≤ p.y) (hy : p.y < 31)
    (hw : mget m (pyint p.y).toNat (pyint p.x).toNat ≠ 1) :
    0 ≤ (movePlayer m p dt).x ∧ (movePlayer m p dt).x < 28 ∧
    0 ≤ (movePlayer m p dt).y ∧ (movePlayer m p dt).y < 31 ∧
    mget m (pyint (movePlayer m p dt).y).toNat (pyint (movePlayer m p dt).x).toNat ≠ 1 := by
  unfold movePlayer
  split_ifs with hdir hopen hsnap
  · obtain ⟨b1, b2, b3, b4⟩ := open_bounds hcol0 hrow0 hopen
    exact ⟨b1, b2, b3, b4, hopen.2.2.2.2⟩
  · obtain ⟨s1, s2, s3, s4, s5⟩ := hsnap
    refine ⟨?_, ?_, ?_, ?_, ?_⟩
    · show (0 : ℚ) ≤ ((pyround p.x : ℤ) : ℚ)
      exact_mod_cast s1
    · show ((pyround p.x : ℤ) : ℚ) < 28
      exact_mod_cast s2
    · show (0 : ℚ) ≤ ((pyround p.y : ℤ) : ℚ)
      exact_mod_cast s3
    · show ((pyround p.y : ℤ) : ℚ) < 31
      exact_mod_cast s4
    · show mget m (pyint ((pyround p.y : ℤ) : ℚ)).toNat
          (pyint ((pyround p.x : ℤ) : ℚ)).toNat ≠ 1
      rw [pyint_intCast, pyint_intCast]
      exact s5
  · exact ⟨hx0, hx, hy0, hy, hw⟩
  · exact ⟨hx0, hx, hy0, hy, hw⟩

/-- The movement step of `Ghost.update` keeps the ghost on a non-wall,
in-bounds tile under the same border assumptions. -/
theorem ghostMoveCore_inv (m : Maze) (g : Ghost) (dt : ℚ)
    (hcol0 : ∀ y : ℕ, y < 31 → mget m y 0 = 1)
    (hrow0 : ∀ x : ℕ, x < 28 → mget m 0 x = 1)
    (hx0 : 0 ≤ g.x) (hx : g.x < 28) (hy0 : 0 ≤ g.y) (hy : g.y < 31)
    (hw : mget m (pyint g.y).toNat (pyint g.x).toNat ≠ 1) :
    0 ≤ (ghostMoveCore m g dt).x ∧ (ghostMoveCore m g dt).x < 28 ∧
    0 ≤ (ghostMoveCore m g dt).y ∧ (ghostMoveCore m g dt).y < 31 ∧
    mget m (pyint (ghostMoveCore m g dt).y).toNat
      (pyint (ghostMoveCore m g dt).x).toNat ≠ 1 := by
  unfold ghostMoveCore
  split_ifs with hopen
  · obtain ⟨b1, b2, b3, b4⟩ := open_bounds hcol0 hrow0 hopen
    exact ⟨b1, b2, b3, b4, hopen.2.2.2.2⟩
  · exact ⟨hx0, hx, hy0, hy, hw⟩

theorem ghostMove_inv (m : Maze) (g : Ghost) (dt : ℚ)
    (hcol0 : ∀ y : ℕ, y < 31 → mget m y 0 = 1)
    (hrow0 : ∀ x : ℕ, x < 28 → mget m 0 x = 1)
    (hx0 : 0 ≤ g.x) (hx : g.x < 28) (hy0 : 0 ≤ g.y) (hy : g.y < 31)
    (hw : mget m (pyint g.y).toNat (pyint g.x).toNat ≠ 1) :
    0 ≤ (ghostMove m g dt).x ∧ (ghostMove m g dt).x < 28 ∧
    0 ≤ (ghostMove m g dt).y ∧ (ghostMove m g dt).y < 31 ∧
    mget m (pyint (ghostMove m g dt).y).toNat (pyint (ghostMove m g dt).x).toNat ≠ 1 := by
  obtain ⟨b1, b2, b3, b4, b5⟩ := ghostMoveCore_inv m g dt hcol0 hrow0 hx0 hx hy0 hy hw
  have hxw : (ghostMove m g dt).x = (ghostMoveCore m g dt).x := by
    show wrapX (ghostMoveCore m g dt).x = (ghostMoveCore m g dt).x
    exact wrapX_eq_self b1 b2
  have hyw : (ghostMove m g dt).y = (ghostMoveCore m g dt).y := rfl
  rw [hxw, hyw]
  exact ⟨b1, b2, b3, b4, b5⟩

/-- Claim C1 (amended): the per-frame agent updates preserve the invariant
that the tile containing the agent is in bounds and not a Wall: if the player
and a pursuer start a frame on non-wall tiles inside the grid (with the
maze's border row 0 and column 0 all walls, and the eaten-return home tile
(13, 14) not a wall), then after `Player.update` and after `Ghost.update`
their tiles are again non-wall tiles inside the grid. The claim's
unconditional form is false: Blinky's spawn tile is itself a wall (see the
counterexample). -/
theorem c1_tile_preservation_amended (ld : LevelData) (p : Player) (k : Keys)
    (g : Ghost) (target : ℚ × ℚ) (r : GhostRand) (dt : ℚ)
    (hcol0 : ∀ y : ℕ, y < 31 → mget ld.maze y 0 = 1)
    (hrow0 : ∀ x : ℕ, x < 28 → mget ld.maze 0 x = 1)
    (hhome : mget ld.maze 14 13 ≠ 1)
    (hpx0 : 0 ≤ p.x) (hpx : p.x < 28) (hpy0 : 0 ≤ p.y) (hpy : p.y < 31)
    (hpw : mget ld.maze (pyint p.y).toNat (pyint p.x).toNat ≠ 1)
    (hgx0 : 0 ≤ g.x) (hgx : g.x < 28) (hgy0 : 0 ≤ g.y) (hgy : g.y < 31)
    (hgw : mget ld.maze (pyint g.y).toNat (pyint g.x).toNat ≠ 1) :
    (0 ≤ (playerUpdate p ld k dt).1.x ∧ (playerUpdate p ld k dt).1.x < 28 ∧
     0 ≤ (playerUpdate p ld k dt).1.y ∧ (playerUpdate p ld k dt).1.y < 31 ∧
     mget (playerUpdate p ld k dt).2.maze (pyint (playerUpdate p ld k dt).1.y).toNat
       (pyint (playerUpdate p ld k dt).1.x).toNat ≠ 1) ∧
    (0 ≤ (ghostUpdate ld.maze g target r dt).x ∧
     (ghostUpdate ld.maze g target r dt).x < 28 ∧
     0 ≤ (ghostUpdate ld.maze g target r dt).y ∧
     (ghostUpdate ld.maze g target r dt).y < 31 ∧
     mget ld.maze (pyint (ghostUpdate ld.maze g target r dt).y).toNat
       (pyint (ghostUpdate ld.maze g target r dt).x).toNat ≠ 1) := by
  constructor
  · obtain ⟨e1x, e1y⟩ := latchInput_pos p k
    obtain ⟨e2x, e2y⟩ := tryTurn_pos ld.maze (latchInput p k)
    obtain ⟨m1, m2, m3, m4, m5⟩ :=
      movePlayer_inv ld.maze (tryTurn ld.maze (latchInput p k)) dt hcol0 hrow0
        (by rw [e2x, e1x]; exact hpx0) (by rw [e2x, e1x]; exact hpx)
        (by rw [e2y, e1y]; exact hpy0) (by rw [e2y, e1y]; exact hpy)
        (by rw [e2x, e1x, e2y, e1y]; exact hpw)
    have hwx : (applyWrap (movePlayer ld.maze (tryTurn ld.maze (latchInput p k)) dt)).x
        = (movePlayer ld.maze (tryTurn ld.maze (latchInput p k)) dt).x := by
      show wrapX _ = _
      exact wrapX_eq_self m1 m2
    have hwy : (applyWrap (movePlayer ld.maze (tryTurn ld.maze (latchInput p k)) dt)).y
        = (movePlayer ld.maze (tryTurn ld.maze (latchInput p k)) dt).y := rfl
    obtain ⟨f1, f2⟩ :=
      eatCell_fst_pos (applyWrap (movePlayer ld.maze (tryTurn ld.maze (latchInput p k)) dt)) ld
    show 0 ≤ (eatCell _ ld).1.x ∧ (eatCell _ ld).1.x < 28 ∧
        0 ≤ (eatCell _ ld).1.y ∧ (eatCell _ ld).1.y < 31 ∧
        mget (eatCell _ ld).2.maze (pyint (eatCell _ ld).1.y).toNat
          (pyint (eatCell _ ld).1.x).toNat ≠ 1
    rw [f1, f2, hwx, hwy]
    exact ⟨m1, m2, m3, m4, eatCell_maze_ne_one _ ld m5⟩
  · unfold ghostUpdate
    split_ifs with he hnear
    · have h13 : pyint ((27 : ℚ) / 2) = 13 := by
        rw [pyint_eq_floor (by norm_num)]
        norm_num
      have h14 : pyint ((14 : ℚ)) = 14 := by
        rw [pyint_eq_floor (by norm_num)]
        norm_num
      refine ⟨by norm_num, by norm_num, by norm_num, by norm_num, ?_⟩
      show mget ld.maze (pyint (14 : ℚ)).toNat (pyint ((27 : ℚ) / 2)).toNat ≠ 1
      rw [h13, h14]
      simpa using hhome
    all_goals exact ghostMove_inv ld.maze _ dt hcol0 hrow0 hgx0 hgx hgy0 hgy hgw

set_option maxRecDepth 4000 in
/-- Claim C1, as stated, is false on the code: Blinky spawns at (13.5, 11.5),
whose tile (13, 11) is a Wall of the generated maze; on the first play frame
(scatter mode, frightened timer 0, Blinky's home-release countdown already 0)
with delta 1/100 s, the greedy chooser picks "up" but the move of 0.059 tiles
stays inside tile (13, 11), is rejected, and the post-update tile is still a
Wall. -/
theorem c1_counterexample :
    (ghostUpdate genMaze blinky0 (27 / 2, 47 / 2) (GhostRand.mk false (0, 0)) (1 / 100)).x
      = 27 / 2 ∧
    (ghostUpdate genMaze blinky0 (27 / 2, 47 / 2) (GhostRand.mk false (0, 0)) (1 / 100)).y
      = 23 / 2 ∧
    mget genMaze
      (pyint (ghostUpdate genMaze blinky0 (27 / 2, 47 / 2)
        (GhostRand.mk false (0, 0)) (1 / 100)).y).toNat
      (pyint (ghostUpdate genMaze blinky0 (27 / 2, 47 / 2)
        (GhostRand.mk false (0, 0)) (1 / 100)).x).toNat = 1 := by
  simp only [genMaze_eq]
  with_unfolding_all decide

set_option maxRecDepth 4000 in
/-- Witness for `c1_tile_preservation_amended`: the level-1 state with the
player at spawn and Pinky inside the ghost house on tile (12, 14). -/
theorem c1_witness :
    (0 ≤ (playerUpdate Player.init ldBase keysNone (1 / 100)).1.x ∧
     (playerUpdate Player.init ldBase keysNone (1 / 100)).1.x < 28 ∧
     0 ≤ (playerUpdate Player.init ldBase keysNone (1 / 100)).1.y ∧
     (playerUpdate Player.init ldBase keysNone (1 / 100)).1.y < 31 ∧
     mget (playerUpdate Player.init ldBase keysNone (1 / 100)).2.maze
       (pyint (playerUpdate Player.init ldBase keysNone (1 / 100)).1.y).toNat
       (pyint (playerUpdate Player.init ldBase keysNone (1 / 100)).1.x).toNat ≠ 1) ∧
    (0 ≤ (ghostUpdate ldBase.maze pinky0 (27 / 2, 47 / 2)
        (GhostRand.mk false (0, 0)) (1 / 100)).x ∧
     (ghostUpdate ldBase.maze pinky0 (27 / 2, 47 / 2)
        (GhostRand.mk false (0, 0)) (1 / 100)).x < 28 ∧
     0 ≤ (ghostUpdate ldBase.maze pinky0 (27 / 2, 47 / 2)
        (GhostRand.mk false (0, 0)) (1 / 100)).y ∧
     (ghostUpdate ldBase.maze pinky0 (27 / 2, 47 / 2)
        (GhostRand.mk false (0, 0)) (1 / 100)).y < 31 ∧
     mget ldBase.maze
       (pyint (ghostUpdate ldBase.maze pinky0 (27 / 2, 47 / 2)
         (GhostRand.mk false (0, 0)) (1 / 100)).y).toNat
       (pyint (ghostUpdate ldBase.maze pinky0 (27 / 2, 47 / 2)
         (GhostRand.mk false (0, 0)) (1 / 100)).x).toNat ≠ 1) :=
  c1_tile_preservation_amended ldBase Player.init keysNone pinky0 (27 / 2, 47 / 2)
    (GhostRand.mk false (0, 0)) (1 / 100)
    (by simp only [ldBase, generate_level]; rw [genMaze_eq]; decide)
    (by simp only [ldBase, generate_level]; rw [genMaze_eq]; decide)
    (by simp only [ldBase, generate_level]; rw [genMaze_eq]; decide)
    (by with_unfolding_all decide) (by with_unfolding_all decide)
    (by with_unfolding_all decide) (by with_unfolding_all decide)
    (by simp only [ldBase, generate_level]; rw [genMaze_eq]; with_unfolding_all decide)
    (by with_unfolding_all decide) (by with_unfolding_all decide)
    (by with_unfolding_all decide) (by with_unfolding_all decide)
    (by simp only [ldBase, generate_level]; rw [genMaze_eq]; with_unfolding_all decide)

/-! Lemmas about the greedy direction-selection fold of `Ghost.update`. -/

theorem chooseStep_skip (m : Maze) (x y tx ty : ℚ) (l : List (ℤ × ℤ))
    (acc : (ℤ × ℤ) × Option ℚ) (h : ∀ c ∈ l, ¬ candOpen m x y c) :
    l.foldl (chooseStep m x y tx ty) acc = acc := by
  induction l generalizing acc with
  | nil => rfl
  | cons c l ih =>
    rw [List.foldl_cons,
      show chooseStep m x y tx ty acc c = acc from by
        unfold chooseStep; rw [if_neg (h c (List.mem_cons_self c l))]]
    exact ih acc (fun c' hc' => h c' (List.mem_cons_of_mem c hc'))

/-- Invariant of the selection fold started from an already-selected open
candidate: the final score never increases, bounds every open candidate of
the remaining list, and the final direction is either the initial one or the
first strictly better open candidate. -/
theorem chooseStep_fold_some (m : Maze) (x y tx ty : ℚ) (l : List (ℤ × ℤ)) :
    ∀ (a : ℤ × ℤ) (b : ℚ),
    ∃ r b2, l.foldl (chooseStep m x y tx ty) (a, some b) = (r, some b2) ∧ b2 ≤ b ∧
      (∀ c ∈ l, candOpen m x y c → b2 ≤ candDist x y tx ty c) ∧
      ((r = a ∧ b2 = b) ∨
        (b2 < b ∧ candOpen m x y r ∧ candDist x y tx ty r = b2 ∧
          ∃ l₁ l₂, l = l₁ ++ r :: l₂ ∧
            ∀ c ∈ l₁, candOpen m x y c → b2 < candDist x y tx ty c)) := by
  induction l with
  | nil =>
    intro a b
    exact ⟨a, b, rfl, le_refl b, by simp, Or.inl ⟨rfl, rfl⟩⟩
  | cons c l ih =>
    intro a b
    rw [List.foldl_cons]
    by_cases hoc : candOpen m x y c
    · by_cases hlt : candDist x y tx ty c < b
      · have hstep : chooseStep m x y tx ty (a, some b) c
            = (c, some (candDist x y tx ty c)) := by
          unfold chooseStep
          rw [if_pos hoc]
          show (if candDist x y tx ty c < b then (c, some (candDist x y tx ty c))
            else (a, some b)) = _
          rw [if_pos hlt]
        rw [hstep]
        obtain ⟨r, b2, heq, hle, hmin, hor⟩ := ih c (candDist x y tx ty c)
        refine ⟨r, b2, heq, le_of_lt (lt_of_le_of_lt hle hlt), ?_, ?_⟩
        · intro c' hc' ho'
          rcases List.mem_cons.mp hc' with rfl | hmem
          · exact hle
          · exact hmin c' hmem ho'
        · rcases hor with ⟨hr, hb⟩ | ⟨hlt2, hopr, hdr, l₁, l₂, hdec, hpre⟩
          · refine Or.inr ⟨lt_of_le_of_lt hle hlt, hr ▸ hoc, by rw [hr, hb], [], l,
              by simp [hr], by simp⟩
          · refine Or.inr ⟨lt_trans hlt2 hlt, hopr, hdr,
              c :: l₁, l₂, by simp [hdec], ?_⟩
            intro c' hc' ho'
            rcases List.mem_cons.mp hc' with rfl | hmem
            · exact hlt2
            · exact hpre c' hmem ho'
      · have hstep : chooseStep m x y tx ty (a, some b) c = (a, some b) := by
          unfold chooseStep
          rw [if_pos hoc]
          show (if candDist x y tx ty c < b then (c, some (candDist x y tx ty c))
            else (a, some b)) = _
          rw [if_neg hlt]
        rw [hstep]
        obtain ⟨r, b2, heq, hle, hmin, hor⟩ := ih a b
        refine ⟨r, b2, heq, hle, ?_, ?_⟩
        · intro c' hc' ho'
          rcases List.mem_cons.mp hc' with rfl | hmem
          · exact le_trans hle (not_lt.mp hlt)
          · exact hmin c' hmem ho'
        · rcases hor with h | ⟨hlt2, hopr, hdr, l₁, l₂, hdec, hpre⟩
          · exact Or.inl h
          · refine Or.inr ⟨hlt2, hopr, hdr, c :: l₁, l₂, by simp [hdec], ?_⟩
            intro c' hc' ho'
            rcases List.mem_cons.mp hc' with rfl | hmem
            · exact lt_of_lt_of_le hlt2 (not_lt.mp hlt)
            · exact hpre c' hmem ho'
    · have hstep : chooseStep m x y tx ty (a, some b) c = (a, some b) := by
        unfold chooseStep; rw [if_neg hoc]
      rw [hstep]
      obtain ⟨r, b2, heq, hle, hmin, hor⟩ := ih a b
      refine ⟨r, b2, heq, hle, ?_, ?_⟩
      · intro c' hc' ho'
        rcases List.mem_cons.mp hc' with rfl | hmem
        · exact absurd ho' hoc
        · exact hmin c' hmem ho'
      · rcases hor with h | ⟨hlt2, hopr, hdr, l₁, l₂, hdec, hpre⟩
        · exact Or.inl h
        · refine Or.inr ⟨hlt2, hopr, hdr, c :: l₁, l₂, by simp [hdec], ?_⟩
          intro c' hc' ho'
          rcases List.mem_cons.mp hc' with rfl | hmem
          · exact absurd ho' hoc
          · exact hpre c' hmem ho'

/-- The selection fold from the initial `(current heading, infinity)`
accumulator: either no candidate is open and the accumulator is untouched, or
it returns the first open candidate of minimal score. -/
theorem chooseStep_fold_none (m : Maze) (x y tx ty : ℚ) (l : List (ℤ × ℤ)) :
    ∀ a : ℤ × ℤ,
    ((∀ c ∈ l, ¬ candOpen m x y c) ∧
      l.foldl (chooseStep m x y tx ty) (a, none) = (a, none)) ∨
    (∃ r b2, l.foldl (chooseStep m x y tx ty) (a, none) = (r, some b2) ∧
      candOpen m x y r ∧ candDist x y tx ty r = b2 ∧
      (∀ c ∈ l, candOpen m x y c → b2 ≤ candDist x y tx ty c) ∧
      ∃ l₁ l₂, l = l₁ ++ r :: l₂ ∧
        ∀ c ∈ l₁, candOpen m x y c → b2 < candDist x y tx ty c) := by
  induction l with
  | nil =>
    intro a
    exact Or.inl ⟨by simp, rfl⟩
  | cons c l ih =>
    intro a
    rw [List.foldl_cons]
    by_cases hoc : candOpen m x y c
    · have hstep : chooseStep m x y tx ty (a, none) c
          = (c, some (candDist x y tx ty c)) := by
        unfold chooseStep; rw [if_pos hoc]
      rw [hstep]
      obtain ⟨r, b2, heq, hle, hmin, hor⟩ :=
        chooseStep_fold_some m x y tx ty l c (candDist x y tx ty c)
      refine Or.inr ⟨r, b2, heq, ?_, ?_, ?_, ?_⟩
      · rcases hor with ⟨hr, -⟩ | ⟨-, hopr, -, -⟩
        · exact hr ▸ hoc
        · exact hopr
      · rcases hor with ⟨hr, hb⟩ | ⟨-, -, hdr, -⟩
        · rw [hr, hb]
        · exact hdr
      · intro c' hc' ho'
        rcases List.mem_cons.mp hc' with rfl | hmem
        · exact hle
        · exact hmin c' hmem ho'
      · rcases hor with ⟨hr, hb⟩ | ⟨hlt2, -, -, l₁, l₂, hdec, hpre⟩
        · exact ⟨[], l, by simp [hr], by simp⟩
        · refine ⟨c :: l₁, l₂, by simp [hdec], ?_⟩
          intro c' hc' ho'
          rcases List.mem_cons.mp hc' with rfl | hmem
          · exact hlt2
          · exact hpre c' hmem ho'
    · have hstep : chooseStep m x y tx ty (a, none) c = (a, none) := by
        unfold chooseStep; rw [if_neg hoc]
      rw [hstep]
      rcases ih a with ⟨hnone, heq⟩ | ⟨r, b2, heq, hopr, hdr, hmin, l₁, l₂, hdec, hpre⟩
      · refine Or.inl ⟨?_, heq⟩
        intro c' hc'
        rcases List.mem_cons.mp hc' with rfl | hmem
        · exact hoc
        · exact hnone c' hmem
      · refine Or.inr ⟨r, b2, heq, hopr, hdr, ?_, c :: l₁, l₂, by simp [hdec], ?_⟩
        · intro c' hc' ho'
          rcases List.mem_cons.mp hc' with rfl | hmem
          · exact absurd ho' hoc
          · exact hmin c' hmem ho'
        · intro c' hc' ho'
          rcases List.mem_cons.mp hc' with rfl | hmem
          · exact absurd ho' hoc
          · exact hpre c' hmem ho'

/-- Claim C6 (amended): the reverse of the current heading is never among the
candidates; when no candidate destination tile is open the pursuer keeps its
current heading (it never reverses, even when the reverse is the only open
direction — see the counterexample); when some candidate is open the chosen
direction is an open candidate of minimal squared distance to the target,
and it is the first such in the fixed priority order up, down, left, right
(every open candidate strictly earlier in the list is strictly farther). -/
theorem c6_direction_amended (m : Maze) (x y tx ty : ℚ) (d : ℤ × ℤ) :
    (d ≠ (0, 0) → ((-d.1, -d.2) ∉ dirCandidates d)) ∧
    ((∀ c ∈ dirCandidates d, ¬ candOpen m x y c) → chooseDir m x y d tx ty = d) ∧
    (∀ c₀ ∈ dirCandidates d, candOpen m x y c₀ →
      candOpen m x y (chooseDir m x y d tx ty) ∧
      (∀ c ∈ dirCandidates d, candOpen m x y c →
        candDist x y tx ty (chooseDir m x y d tx ty) ≤ candDist x y tx ty c) ∧
      ∃ l₁ l₂, dirCandidates d = l₁ ++ chooseDir m x y d tx ty :: l₂ ∧
        ∀ c ∈ l₁, candOpen m x y c →
          candDist x y tx ty (chooseDir m x y d tx ty) < candDist x y tx ty c) := by
  refine ⟨?_, ?_, ?_⟩
  · intro hd hmem
    unfold dirCandidates at hmem
    rw [if_pos hd] at hmem
    exact (of_decide_eq_true (List.mem_filter.mp hmem).2) rfl
  · intro hall
    unfold chooseDir
    rw [chooseStep_skip m x y tx ty _ _ hall]
  · intro c₀ hc₀ ho₀
    rcases chooseStep_fold_none m x y tx ty (dirCandidates d) d with
      ⟨hnone, -⟩ | ⟨r, b2, heq, hopr, hdr, hmin, l₁, l₂, hdec, hpre⟩
    · exact absurd ho₀ (hnone c₀ hc₀)
    · have hr : chooseDir m x y d tx ty = r := by
        unfold chooseDir; rw [heq]
      rw [hr]
      refine ⟨hopr, ?_, l₁, l₂, hdec, ?_⟩
      · intro c hc ho
        rw [hdr]
        exact hmin c hc ho
      · intro c hc ho
        rw [hdr]
        exact hpre c hc ho

set_option maxRecDepth 4000 in
/-- Claim C6, as stated, is false on the code: at the dead-end tile (3, 3) of
the generated maze, a pursuer heading left has its reverse (right) as the
only direction whose destination tile is not a Wall, yet the chooser keeps
the blocked current heading (-1, 0) instead of permitting the reverse — the
reverse is removed from the candidates unconditionally. -/
theorem c6_counterexample :
    chooseDir genMaze (7 / 2) (7 / 2) (-1, 0) 25 3 = (-1, 0) ∧
    candOpen genMaze (7 / 2) (7 / 2) ((1 : ℤ), (0 : ℤ)) ∧
    (∀ c ∈ dirCandidates (-1, 0), ¬ candOpen genMaze (7 / 2) (7 / 2) c) ∧
    ¬ candOpen genMaze (7 / 2) (7 / 2) ((-1 : ℤ), (0 : ℤ)) := by
  simp only [genMaze_eq]
  refine ⟨?_, ?_, ?_, ?_⟩ <;> with_unfolding_all decide

set_option maxRecDepth 4000 in
/-- Witness for `c6_direction_amended`: Blinky's spawn point, where the up
candidate is open, instantiating the open-candidate case of the theorem. -/
theorem c6_witness :
    candOpen genMaze (27 / 2) (23 / 2) (chooseDir genMaze (27 / 2) (23 / 2) (0, 0) 25 3) ∧
    (∀ c ∈ dirCandidates ((0 : ℤ), (0 : ℤ)), candOpen genMaze (27 / 2) (23 / 2) c →
      candDist (27 / 2) (23 / 2) 25 3 (chooseDir genMaze (27 / 2) (23 / 2) (0, 0) 25 3)
        ≤ candDist (27 / 2) (23 / 2) 25 3 c) ∧
    ∃ l₁ l₂, dirCandidates ((0 : ℤ), (0 : ℤ))
        = l₁ ++ chooseDir genMaze (27 / 2) (23 / 2) (0, 0) 25 3 :: l₂ ∧
      ∀ c ∈ l₁, candOpen genMaze (27 / 2) (23 / 2) c →
        candDist (27 / 2) (23 / 2) 25 3 (chooseDir genMaze (27 / 2) (23 / 2) (0, 0) 25 3)
          < candDist (27 / 2) (23 / 2) 25 3 c :=
  (c6_direction_amended genMaze (27 / 2) (23 / 2) 25 3 (0, 0)).2.2 (0, -1)
    (by decide) (by simp only [genMaze_eq]; with_unfolding_all decide)

end Pacman4k
